import Mathlib

/-!
# Verification of the DateFlow date/time library

Shallow embedding of `src/dist/index.d.ts` (the `DateFlow` class) in Lean 4.

The class wraps a JavaScript `Date`; the host `Date` semantics (ECMA-262,
"Year Number, Month Number, Date Number" operations and the local-time
conversion) are embedded below in namespace `JSDate`.  Time values are
milliseconds since the Unix epoch, represented as `Int`.  Division rounding
follows ECMA-262: `floor` for positive literal divisors, and the ECMAScript
`modulo` operation, which for positive divisors are Euclidean division and
remainder — written `/` and `%` on `Int` (`Int.ediv` / `Int.emod`).

The system timezone is a parameter of the embedding: `JSDate.Tz` carries the
UTC-offset (in minutes, in the `getTimezoneOffset` sign convention: positive
west of UTC) as a function of the instant (`ofs`, used by `LocalTime`) and as
a function of the local time value (`ofsLoc`, used by the `UTC` operation on
values produced by the date component setters).  A DST-free system timezone is
the constant case `constTz`.
-/

namespace JSDate

/-- ECMA-262 `Day(t)`: day number of time value `t`. -/
def dayNumber (t : Int) : Int := t / 86400000

/-- ECMA-262 `TimeWithinDay(t)`. -/
def timeWithinDay (t : Int) : Int := t % 86400000

/-- ECMA-262 `DaysInYear(y)`. -/
def daysInYear (y : Int) : Int :=
  if y % 4 ≠ 0 then 365
  else if y % 100 ≠ 0 then 366
  else if y % 400 ≠ 0 then 365
  else 366

/-- ECMA-262 `DayFromYear(y)`: day number of the first day of year `y`. -/
def dayFromYear (y : Int) : Int :=
  365 * (y - 1970) + (y - 1969) / 4 - (y - 1901) / 100 + (y - 1601) / 400

/-- ECMA-262 `YearFromTime`, at day-number level: the unique `y` with
`dayFromYear y ≤ d < dayFromYear (y+1)`.  ECMA-262 specifies the year only by
this characterization; we compute it by a linear estimate followed by at most
two downward and two upward corrections (`yearFromDay_spec` proves the
characterization, `yearFromDay_eq` its uniqueness). -/
def yearFromDay (d : Int) : Int :=
  let q := (400 * d) / 146097 + 1970
  let a := if d < dayFromYear q then q - 1 else q
  let b := if d < dayFromYear a then a - 1 else a
  let c := if dayFromYear (b + 1) ≤ d then b + 1 else b
  if dayFromYear (c + 1) ≤ d then c + 1 else c

/-- ECMA-262 `InLeapYear`, at day-number level: `DaysInYear(YearFromTime) - 365`. -/
def inLeapD (d : Int) : Int := daysInYear (yearFromDay d) - 365

/-- ECMA-262 `DayWithinYear(t)`, at day-number level. -/
def dayWithinYear (d : Int) : Int := d - dayFromYear (yearFromDay d)

/-- The month selection if-chain of ECMA-262 `MonthFromTime` (§21.4.1.4), on a
day-within-year `w` and leap bit `L`. -/
def monthFromDayAux (w L : Int) : Int :=
  if w < 31 then 0
  else if w < 59 + L then 1
  else if w < 90 + L then 2
  else if w < 120 + L then 3
  else if w < 151 + L then 4
  else if w < 181 + L then 5
  else if w < 212 + L then 6
  else if w < 243 + L then 7
  else if w < 273 + L then 8
  else if w < 304 + L then 9
  else if w < 334 + L then 10
  else 11

/-- ECMA-262 `MonthFromTime(t)` (0-based month), at day-number level. -/
def monthFromDay (d : Int) : Int := monthFromDayAux (dayWithinYear d) (inLeapD d)

/-- Cumulative days before 0-based month `m` in a year with leap bit `L`
(the table of ECMA-262 §21.4.1.4; `m = 12` gives the year length). -/
def cumDays (m L : Int) : Int :=
  if m ≤ 0 then 0
  else if m = 1 then 31
  else if m = 2 then 59 + L
  else if m = 3 then 90 + L
  else if m = 4 then 120 + L
  else if m = 5 then 151 + L
  else if m = 6 then 181 + L
  else if m = 7 then 212 + L
  else if m = 8 then 243 + L
  else if m = 9 then 273 + L
  else if m = 10 then 304 + L
  else if m = 11 then 334 + L
  else 365 + L

/-- ECMA-262 `DateFromTime(t)` (1-based day of month), at day-number level; the
per-month subtraction table of §21.4.1.5, written via `cumDays`. -/
def dateFromDay (d : Int) : Int :=
  dayWithinYear d - cumDays (monthFromDay d) (inLeapD d) + 1

/-- Days in 0-based month `m` of year `y`. -/
def daysInMonth (y m : Int) : Int :=
  cumDays (m + 1) (daysInYear y - 365) - cumDays m (daysInYear y - 365)

/-- ECMA-262 `MakeDay(year, month, date)` (month 0-based, both month and date
may be out of range and roll over). -/
def makeDay (y m dt : Int) : Int :=
  let ym := y + m / 12
  let mn := m % 12
  dayFromYear ym + cumDays mn (daysInYear ym - 365) + dt - 1

/-- ECMA-262 `MakeTime(hour, min, sec, ms)`. -/
def makeTime (h mi s ms : Int) : Int :=
  h * 3600000 + mi * 60000 + s * 1000 + ms

/-- ECMA-262 `MakeDate(day, time)`. -/
def makeDate (d time : Int) : Int := d * 86400000 + time

/-- ECMA-262 `HourFromTime(t)`. -/
def hourFromTime (t : Int) : Int := (t / 3600000) % 24

/-- ECMA-262 `MinFromTime(t)`. -/
def minFromTime (t : Int) : Int := (t / 60000) % 60

/-- ECMA-262 `SecFromTime(t)`. -/
def secFromTime (t : Int) : Int := (t / 1000) % 60

/-- ECMA-262 `msFromTime(t)`. -/
def msFromTime (t : Int) : Int := t % 1000

/-- ECMA-262 `WeekDay(t)`, at day-number level: `(Day(t) + 4) modulo 7`
(0 = Sunday). -/
def weekDay (d : Int) : Int := (d + 4) % 7

/-- The system timezone: UTC offset in minutes (`getTimezoneOffset` sign:
positive = west of UTC), as a function of the instant (`ofs`) and of a local
time value (`ofsLoc`, the offset the ECMA-262 `UTC` operation applies when
converting local time back to an instant). -/
structure Tz where
  ofs : Int → Int
  ofsLoc : Int → Int

/-- A DST-free system timezone with fixed offset `c` minutes. -/
def constTz (c : Int) : Tz := ⟨fun _ => c, fun _ => c⟩

/-- ECMA-262 `LocalTime(t)`. -/
def localTime (tz : Tz) (t : Int) : Int := t - tz.ofs t * 60000

/-- ECMA-262 `UTC(u)` for a local time value `u`. -/
def fromLocal (tz : Tz) (u : Int) : Int := u + tz.ofsLoc u * 60000

/-- `Date.prototype.getTime`. -/
def getTime (t : Int) : Int := t

/-- `Date.prototype.getTimezoneOffset`. -/
def getTimezoneOffset (tz : Tz) (t : Int) : Int := tz.ofs t

/-- `Date.prototype.getFullYear`. -/
def getFullYear (tz : Tz) (t : Int) : Int := yearFromDay (dayNumber (localTime tz t))

/-- `Date.prototype.getMonth` (0-based). -/
def getMonth (tz : Tz) (t : Int) : Int := monthFromDay (dayNumber (localTime tz t))

/-- `Date.prototype.getDate` (1-based day of month). -/
def getDate (tz : Tz) (t : Int) : Int := dateFromDay (dayNumber (localTime tz t))

/-- `Date.prototype.getDay` (0 = Sunday). -/
def getDay (tz : Tz) (t : Int) : Int := weekDay (dayNumber (localTime tz t))

/-- `Date.prototype.getHours`. -/
def getHours (tz : Tz) (t : Int) : Int := hourFromTime (localTime tz t)

/-- `Date.prototype.getMinutes`. -/
def getMinutes (tz : Tz) (t : Int) : Int := minFromTime (localTime tz t)

/-- `Date.prototype.getSeconds`. -/
def getSeconds (tz : Tz) (t : Int) : Int := secFromTime (localTime tz t)

/-- `Date.prototype.getMilliseconds`. -/
def getMilliseconds (tz : Tz) (t : Int) : Int := msFromTime (localTime tz t)

/-- `Date.prototype.setHours(h, min, sec, ms)` (4-argument form). -/
def setHours4 (tz : Tz) (t h mi s ms : Int) : Int :=
  let u := localTime tz t
  fromLocal tz (makeDate (dayNumber u) (makeTime h mi s ms))

/-- `Date.prototype.setHours(h)` (1-argument form). -/
def setHours1 (tz : Tz) (t h : Int) : Int :=
  let u := localTime tz t
  fromLocal tz (makeDate (dayNumber u) (makeTime h (minFromTime u) (secFromTime u) (msFromTime u)))

/-- `Date.prototype.setMinutes(min)` (1-argument form). -/
def setMinutes1 (tz : Tz) (t mi : Int) : Int :=
  let u := localTime tz t
  fromLocal tz (makeDate (dayNumber u) (makeTime (hourFromTime u) mi (secFromTime u) (msFromTime u)))

/-- `Date.prototype.setMinutes(min, sec, ms)` (3-argument form). -/
def setMinutes3 (tz : Tz) (t mi s ms : Int) : Int :=
  let u := localTime tz t
  fromLocal tz (makeDate (dayNumber u) (makeTime (hourFromTime u) mi s ms))

/-- `Date.prototype.setSeconds(sec)` (1-argument form). -/
def setSeconds1 (tz : Tz) (t s : Int) : Int :=
  let u := localTime tz t
  fromLocal tz (makeDate (dayNumber u) (makeTime (hourFromTime u) (minFromTime u) s (msFromTime u)))

/-- `Date.prototype.setSeconds(sec, ms)` (2-argument form). -/
def setSeconds2 (tz : Tz) (t s ms : Int) : Int :=
  let u := localTime tz t
  fromLocal tz (makeDate (dayNumber u) (makeTime (hourFromTime u) (minFromTime u) s ms))

/-- `Date.prototype.setMilliseconds(ms)`. -/
def setMilliseconds1 (tz : Tz) (t ms : Int) : Int :=
  let u := localTime tz t
  fromLocal tz (makeDate (dayNumber u) (makeTime (hourFromTime u) (minFromTime u) (secFromTime u) ms))

/-- `Date.prototype.setDate(dt)`. -/
def setDate1 (tz : Tz) (t dt : Int) : Int :=
  let u := localTime tz t
  let d := dayNumber u
  fromLocal tz (makeDate (makeDay (yearFromDay d) (monthFromDay d) dt) (timeWithinDay u))

/-- `Date.prototype.setMonth(m)` (1-argument form). -/
def setMonth1 (tz : Tz) (t m : Int) : Int :=
  let u := localTime tz t
  let d := dayNumber u
  fromLocal tz (makeDate (makeDay (yearFromDay d) m (dateFromDay d)) (timeWithinDay u))

/-- `Date.prototype.setMonth(m, dt)` (2-argument form). -/
def setMonth2 (tz : Tz) (t m dt : Int) : Int :=
  let u := localTime tz t
  let d := dayNumber u
  fromLocal tz (makeDate (makeDay (yearFromDay d) m dt) (timeWithinDay u))

/-- `Date.prototype.setFullYear(y)` (1-argument form). -/
def setFullYear1 (tz : Tz) (t y : Int) : Int :=
  let u := localTime tz t
  let d := dayNumber u
  fromLocal tz (makeDate (makeDay y (monthFromDay d) (dateFromDay d)) (timeWithinDay u))

end JSDate

section CalendarSanity

example : JSDate.dayFromYear 1970 = 0 := by decide
example : JSDate.dayFromYear 2024 = 19723 := by decide
example : JSDate.yearFromDay 0 = 1970 := by decide
example : JSDate.yearFromDay 19723 = 2024 := by decide
example : JSDate.yearFromDay (-1) = 1969 := by decide
example : JSDate.monthFromDay 19723 = 0 := by decide
example : JSDate.dateFromDay 19723 = 1 := by decide
example : JSDate.makeDay 2024 0 1 = 19723 := by decide
example : JSDate.weekDay 0 = 4 := by decide
example : JSDate.daysInYear 2024 = 366 := by decide
example : JSDate.daysInYear 1900 = 365 := by decide
example : JSDate.daysInYear 2000 = 366 := by decide

end CalendarSanity

/-! ## String model

JavaScript strings are embedded as `List Char`.  `String.prototype.replace`
with a string pattern replaces the first occurrence only; `includes` tests
substring containment; `padStart` left-pads; `Number.prototype.toString`
renders an integral number in decimal. -/

/-- Decimal digit character for `n % 10`. -/
def digitChar (n : Nat) : Char := Char.ofNat (48 + n % 10)

/-- Decimal digits, by structural recursion on a fuel bound (so that the
function reduces definitionally; `fuel = n + 1` always suffices since the
argument shrinks by a factor of 10 each step). -/
def natDigitsGo : Nat → Nat → List Char
  | 0, _ => []
  | fuel + 1, n =>
    if n < 10 then [digitChar n]
    else natDigitsGo fuel (n / 10) ++ [digitChar (n % 10)]

/-- Decimal digits of a natural number (no leading zeros; `0` renders as "0"). -/
def natDigits (n : Nat) : List Char := natDigitsGo (n + 1) n

/-- `Number.prototype.toString` for an integral value. -/
def intToChars (i : Int) : List Char :=
  if i < 0 then '-' :: natDigits i.natAbs else natDigits i.natAbs

/-- `String.prototype.padStart(w, c)`. -/
def padStart (w : Nat) (c : Char) (s : List Char) : List Char :=
  List.replicate (w - s.length) c ++ s

/-- `n.toString().padStart(2, '0')`. -/
def pad2 (i : Int) : List Char := padStart 2 '0' (intToChars i)

/-- Whether `needle` is a prefix of the second list. -/
def hasPrefix : List Char → List Char → Bool
  | [], _ => true
  | _ :: _, [] => false
  | a :: as, b :: bs => a == b && hasPrefix as bs

/-- `String.prototype.replace(needle, repl)` with a string pattern:
replace the first occurrence only; no occurrence leaves the string unchanged. -/
def replaceFirst (needle repl : List Char) : List Char → List Char
  | [] => []
  | c :: s =>
    if hasPrefix needle (c :: s) then repl ++ (c :: s).drop needle.length
    else c :: replaceFirst needle repl s

/-- `String.prototype.includes(needle)`. -/
def containsSeq (needle : List Char) : List Char → Bool
  | [] => needle.isEmpty
  | c :: s => hasPrefix needle (c :: s) || containsSeq needle s

/-! ## The DateFlow class (`src/dist/index.d.ts`) -/

/-- `UnitType` from the source. -/
inductive UnitType
  | year | month | week | day | hour | minute | second | millisecond
deriving DecidableEq

/-- `LocaleType` from the source. -/
inductive LocaleType
  | itIT | enEN | frFR | enUS | esES | deDE | ptBR | jaJP | zhCN | ruRU
deriving DecidableEq

/-- `DateFormatType` from the source: the 16 enumerated pattern strings. -/
inductive DateFormatType
  | ymdDashHms | ymdDashHm | ymdDashH | ymdDash
  | ymdSlashHms | ymdSlashHm | ymdSlashH | ymdSlash
  | dmySlashHms | dmySlashHm | dmySlashH | dmySlash
  | dmyDashHms | dmyDashHm | dmyDashH | dmyDash
deriving DecidableEq

/-- The literal pattern string of each `DateFormatType` member, as an explicit
character list (see the example below equating each to its string form). -/
def DateFormatType.pattern : DateFormatType → List Char
  | .ymdDashHms => ['Y','Y','Y','Y','-','M','M','-','D','D',' ','H','H',':','m','m',':','s','s']
  | .ymdDashHm => ['Y','Y','Y','Y','-','M','M','-','D','D',' ','H','H',':','m','m']
  | .ymdDashH => ['Y','Y','Y','Y','-','M','M','-','D','D',' ','H','H']
  | .ymdDash => ['Y','Y','Y','Y','-','M','M','-','D','D']
  | .ymdSlashHms => ['Y','Y','Y','Y','/','M','M','/','D','D',' ','H','H',':','m','m',':','s','s']
  | .ymdSlashHm => ['Y','Y','Y','Y','/','M','M','/','D','D',' ','H','H',':','m','m']
  | .ymdSlashH => ['Y','Y','Y','Y','/','M','M','/','D','D',' ','H','H']
  | .ymdSlash => ['Y','Y','Y','Y','/','M','M','/','D','D']
  | .dmySlashHms => ['D','D','/','M','M','/','Y','Y','Y','Y',' ','H','H',':','m','m',':','s','s']
  | .dmySlashHm => ['D','D','/','M','M','/','Y','Y','Y','Y',' ','H','H',':','m','m']
  | .dmySlashH => ['D','D','/','M','M','/','Y','Y','Y','Y',' ','H','H']
  | .dmySlash => ['D','D','/','M','M','/','Y','Y','Y','Y']
  | .dmyDashHms => ['D','D','-','M','M','-','Y','Y','Y','Y',' ','H','H',':','m','m',':','s','s']
  | .dmyDashHm => ['D','D','-','M','M','-','Y','Y','Y','Y',' ','H','H',':','m','m']
  | .dmyDashH => ['D','D','-','M','M','-','Y','Y','Y','Y',' ','H','H']
  | .dmyDash => ['D','D','-','M','M','-','Y','Y','Y','Y']

example :
    DateFormatType.ymdDashHms.pattern = "YYYY-MM-DD HH:mm:ss".toList ∧
    DateFormatType.ymdDashHm.pattern = "YYYY-MM-DD HH:mm".toList ∧
    DateFormatType.ymdDashH.pattern = "YYYY-MM-DD HH".toList ∧
    DateFormatType.ymdDash.pattern = "YYYY-MM-DD".toList ∧
    DateFormatType.ymdSlashHms.pattern = "YYYY/MM/DD HH:mm:ss".toList ∧
    DateFormatType.ymdSlashHm.pattern = "YYYY/MM/DD HH:mm".toList ∧
    DateFormatType.ymdSlashH.pattern = "YYYY/MM/DD HH".toList ∧
    DateFormatType.ymdSlash.pattern = "YYYY/MM/DD".toList ∧
    DateFormatType.dmySlashHms.pattern = "DD/MM/YYYY HH:mm:ss".toList ∧
    DateFormatType.dmySlashHm.pattern = "DD/MM/YYYY HH:mm".toList ∧
    DateFormatType.dmySlashH.pattern = "DD/MM/YYYY HH".toList ∧
    DateFormatType.dmySlash.pattern = "DD/MM/YYYY".toList ∧
    DateFormatType.dmyDashHms.pattern = "DD-MM-YYYY HH:mm:ss".toList ∧
    DateFormatType.dmyDashHm.pattern = "DD-MM-YYYY HH:mm".toList ∧
    DateFormatType.dmyDashH.pattern = "DD-MM-YYYY HH".toList ∧
    DateFormatType.dmyDash.pattern = "DD-MM-YYYY".toList := by decide

/-- The `DateFlow` instance state: the wrapped `Date`'s time value and the two
optional defaults (all three fields are `readonly` in the source). -/
structure DateFlow where
  date : Int
  dateFormat : Option DateFormatType
  locale : Option LocaleType
deriving DecidableEq

/-- Constructor input: a `Date` object (possibly an Invalid Date), a number,
or a string (converted via `new Date(value)`). -/
inductive DateInput
  | fromDate (v : Option Int)
  | fromNumber (v : Option Int)
  | fromString (s : String)
deriving DecidableEq

/-- ECMA-262 `TimeClip`: a number is a valid time value iff its magnitude is
at most 8.64e15 ms; `DateInput.fromNumber none` stands for NaN/infinite. -/
def timeClip (v : Int) : Option Int :=
  if v.natAbs ≤ 8640000000000000 then some v else none

/-- Numeric value of a decimal digit character. -/
def digVal (c : Char) : Int := (c.toNat : Int) - 48

/-- Modelled from the host platform: `new Date(string)` for the ECMA-262 Date
Time String Format date-only form `YYYY-MM-DD` (interpreted as UTC midnight);
any other string yields an Invalid Date (`none`), as V8 does for
out-of-range components or unrecognized text. -/
def parseISODate (s : String) : Option Int :=
  match s.toList with
  | [y1, y2, y3, y4, s1, m1, m2, s2, d1, d2] =>
    if y1.isDigit && y2.isDigit && y3.isDigit && y4.isDigit && s1 == '-' &&
       m1.isDigit && m2.isDigit && s2 == '-' && d1.isDigit && d2.isDigit then
      let y := 1000 * digVal y1 + 100 * digVal y2 + 10 * digVal y3 + digVal y4
      let mo := 10 * digVal m1 + digVal m2
      let dy := 10 * digVal d1 + digVal d2
      if 1 ≤ mo ∧ mo ≤ 12 ∧ 1 ≤ dy ∧ dy ≤ JSDate.daysInMonth y (mo - 1) then
        some (JSDate.makeDay y (mo - 1) dy * 86400000)
      else none
    else none
  | _ => none

/-- `date instanceof Date ? date : new Date(date)` followed by `getTime()`:
the resolved instant of a constructor input (`none` = Invalid Date). -/
def resolveInput : DateInput → Option Int
  | .fromDate v => v
  | .fromNumber v => v.bind timeClip
  | .fromString s => parseISODate s

namespace DateFlow

/-- The `DateFlow` constructor: resolve the input; throw
`Error("Invalid date provided")` if `isNaN(date.getTime())`; otherwise store
the date and the two optional defaults. -/
def construct (input : DateInput) (dateFormat : Option DateFormatType)
    (locale : Option LocaleType) : Except String DateFlow :=
  match resolveInput input with
  | none => .error "Invalid date provided"
  | some t => .ok ⟨t, dateFormat, locale⟩

/-- Getter `day`: `this._date.getDate()`. -/
def day (tz : JSDate.Tz) (m : DateFlow) : Int := JSDate.getDate tz m.date

/-- Getter `month`: `this._date.getMonth() + 1`. -/
def month (tz : JSDate.Tz) (m : DateFlow) : Int := JSDate.getMonth tz m.date + 1

/-- Getter `year`: `this._date.getFullYear()`. -/
def year (tz : JSDate.Tz) (m : DateFlow) : Int := JSDate.getFullYear tz m.date

/-- Getter `hour`: `this._date.getHours()`. -/
def hour (tz : JSDate.Tz) (m : DateFlow) : Int := JSDate.getHours tz m.date

/-- Getter `minute`: `this._date.getMinutes()`. -/
def minute (tz : JSDate.Tz) (m : DateFlow) : Int := JSDate.getMinutes tz m.date

/-- Getter `second`: `this._date.getSeconds()`. -/
def second (tz : JSDate.Tz) (m : DateFlow) : Int := JSDate.getSeconds tz m.date

/-- Getter `millisecond`: `this._date.getMilliseconds()`. -/
def millisecond (tz : JSDate.Tz) (m : DateFlow) : Int := JSDate.getMilliseconds tz m.date

/-- `valueOf()`: `this._date.getTime()`. -/
def valueOf (m : DateFlow) : Int := JSDate.getTime m.date

/-- The switch statement of `_modifyDate`: the calendar-arithmetic step on the
copied date, before any DST adjustment. -/
def calendarStep (tz : JSDate.Tz) (t amount : Int) : UnitType → Int
  | .year => JSDate.setFullYear1 tz t (JSDate.getFullYear tz t + amount)
  | .month => JSDate.setMonth1 tz t (JSDate.getMonth tz t + amount)
  | .week => JSDate.setDate1 tz t (JSDate.getDate tz t + amount * 7)
  | .day => JSDate.setDate1 tz t (JSDate.getDate tz t + amount)
  | .hour => JSDate.setHours1 tz t (JSDate.getHours tz t + amount)
  | .minute => JSDate.setMinutes1 tz t (JSDate.getMinutes tz t + amount)
  | .second => JSDate.setSeconds1 tz t (JSDate.getSeconds tz t + amount)
  | .millisecond => JSDate.setMilliseconds1 tz t (JSDate.getMilliseconds tz t + amount)

/-- Private `_modifyDate(amount, unit)`: copy the date, apply the unit switch,
then — only when `this._locale` is set and the timezone offset changed —
shift the minutes back by `newOffset - originalOffset`; return a new instance
carrying over `dateFormat` and `locale`. -/
def modifyDate (tz : JSDate.Tz) (m : DateFlow) (amount : Int) (unit : UnitType) : DateFlow :=
  let newDate := calendarStep tz m.date amount unit
  let newDate2 :=
    if m.locale.isSome then
      let originalOffset := JSDate.getTimezoneOffset tz m.date
      let newOffset := JSDate.getTimezoneOffset tz newDate
      if originalOffset ≠ newOffset then
        JSDate.setMinutes1 tz newDate (JSDate.getMinutes tz newDate - (newOffset - originalOffset))
      else newDate
    else newDate
  ⟨newDate2, m.dateFormat, m.locale⟩

/-- `add(amount, unit)`. -/
def add (tz : JSDate.Tz) (m : DateFlow) (amount : Int) (unit : UnitType) : DateFlow :=
  modifyDate tz m amount unit

/-- `subtract(amount, unit)`: `_modifyDate(-amount, unit)`. -/
def subtract (tz : JSDate.Tz) (m : DateFlow) (amount : Int) (unit : UnitType) : DateFlow :=
  modifyDate tz m (-amount) unit

/-- `startOf(unit)`. -/
def startOf (tz : JSDate.Tz) (m : DateFlow) (unit : UnitType) : DateFlow :=
  let t := m.date
  let newDate :=
    match unit with
    | .year => JSDate.setHours4 tz (JSDate.setMonth2 tz t 0 1) 0 0 0 0
    | .month => JSDate.setHours4 tz (JSDate.setDate1 tz t 1) 0 0 0 0
    | .week =>
      let dayOfWeek := JSDate.getDay tz t
      JSDate.setHours4 tz (JSDate.setDate1 tz t (JSDate.getDate tz t - dayOfWeek)) 0 0 0 0
    | .day => JSDate.setHours4 tz t 0 0 0 0
    | .hour => JSDate.setMinutes3 tz t 0 0 0
    | .minute => JSDate.setSeconds2 tz t 0 0
    | .second => JSDate.setMilliseconds1 tz t 0
    | .millisecond => t
  ⟨newDate, m.dateFormat, m.locale⟩

/-- `endOf(unit)`. -/
def endOf (tz : JSDate.Tz) (m : DateFlow) (unit : UnitType) : DateFlow :=
  let t := m.date
  let newDate :=
    match unit with
    | .year => JSDate.setHours4 tz (JSDate.setMonth2 tz t 11 31) 23 59 59 999
    | .month => JSDate.setHours4 tz (JSDate.setMonth2 tz t (JSDate.getMonth tz t + 1) 0) 23 59 59 999
    | .week =>
      let dayOfWeek := JSDate.getDay tz t
      JSDate.setHours4 tz (JSDate.setDate1 tz t (JSDate.getDate tz t + (6 - dayOfWeek))) 23 59 59 999
    | .day => JSDate.setHours4 tz t 23 59 59 999
    | .hour => JSDate.setMinutes3 tz t 59 59 999
    | .minute => JSDate.setSeconds2 tz t 59 999
    | .second => JSDate.setMilliseconds1 tz t 999
    | .millisecond => t
  ⟨newDate, m.dateFormat, m.locale⟩

/-- `clone()`: a new instance with a copied internal `Date` of the same time
value and the same configuration. -/
def clone (m : DateFlow) : DateFlow := ⟨m.date, m.dateFormat, m.locale⟩

/-- `diff(otherDate, unit)`. -/
def diff (tz : JSDate.Tz) (x y : DateFlow) (unit : UnitType) : Int :=
  let diffMs := x.date - y.date
  match unit with
  | .millisecond => diffMs
  | .second => diffMs.fdiv 1000
  | .minute => diffMs.fdiv (1000 * 60)
  | .hour => diffMs.fdiv (1000 * 60 * 60)
  | .day => diffMs.fdiv (1000 * 60 * 60 * 24)
  | .week => diffMs.fdiv (1000 * 60 * 60 * 24 * 7)
  | .month =>
    (JSDate.getFullYear tz x.date - JSDate.getFullYear tz y.date) * 12 +
      (JSDate.getMonth tz x.date - JSDate.getMonth tz y.date)
  | .year => JSDate.getFullYear tz x.date - JSDate.getFullYear tz y.date

end DateFlow

section ModelSanity

example : parseISODate "2024-02-10" = some 1707523200000 := by decide
example : parseISODate "not-a-date" = none := by rfl
example : parseISODate "2024-02-30" = none := by decide

end ModelSanity

/-! ## Calendar lemmas -/

namespace JSDate

/-- The first day of year `y+1` is the first day of `y` plus the year length. -/
theorem dayFromYear_succ (y : Int) : dayFromYear (y + 1) = dayFromYear y + daysInYear y := by
  simp only [dayFromYear, daysInYear]
  split_ifs <;> omega

/-- `dayFromYear` is monotone. -/
theorem dayFromYear_mono {y y' : Int} (h : y ≤ y') : dayFromYear y ≤ dayFromYear y' := by
  simp only [dayFromYear]
  omega

/-- `yearFromDay` satisfies the ECMA-262 `YearFromTime` characterization. -/
theorem yearFromDay_spec (d : Int) :
    dayFromYear (yearFromDay d) ≤ d ∧ d < dayFromYear (yearFromDay d + 1) := by
  simp only [yearFromDay, dayFromYear]
  split_ifs <;> omega

/-- The `YearFromTime` characterization determines the year uniquely. -/
theorem yearFromDay_eq {y d : Int} (h1 : dayFromYear y ≤ d) (h2 : d < dayFromYear (y + 1)) :
    yearFromDay d = y := by
  rcases lt_trichotomy (yearFromDay d) y with h | h | h
  · have := dayFromYear_mono (show yearFromDay d + 1 ≤ y by omega)
    have := (yearFromDay_spec d).2
    omega
  · exact h
  · have := dayFromYear_mono (show y + 1 ≤ yearFromDay d by omega)
    have := (yearFromDay_spec d).1
    omega

/-- A year is 365 or 366 days long. -/
theorem daysInYear_eq (y : Int) : daysInYear y = 365 ∨ daysInYear y = 366 := by
  simp only [daysInYear]; split_ifs <;> omega

/-- The day-within-year lies inside the year. -/
theorem dayWithinYear_bounds (d : Int) :
    0 ≤ dayWithinYear d ∧ dayWithinYear d < daysInYear (yearFromDay d) := by
  have h := yearFromDay_spec d
  have hs := dayFromYear_succ (yearFromDay d)
  simp only [dayWithinYear]
  omega

/-- What `monthFromDayAux` computes: a 0-based month in range whose
cumulative-days interval contains the day-within-year. -/
def MonthSpec (w L m : Int) : Prop :=
  0 ≤ m ∧ m ≤ 11 ∧ cumDays m L ≤ w ∧ w < cumDays (m + 1) L

/-- The month selection chain satisfies `MonthSpec`. -/
theorem monthFromDayAux_spec (w L : Int) (h0 : 0 ≤ w) (h1 : w < 365 + L) :
    MonthSpec w L (monthFromDayAux w L) := by
  unfold monthFromDayAux
  by_cases c1 : w < 31
  · rw [if_pos c1]; simp only [MonthSpec, cumDays]; norm_num; omega
  rw [if_neg c1]
  by_cases c2 : w < 59 + L
  · rw [if_pos c2]; simp only [MonthSpec, cumDays]; norm_num; omega
  rw [if_neg c2]
  by_cases c3 : w < 90 + L
  · rw [if_pos c3]; simp only [MonthSpec, cumDays]; norm_num; omega
  rw [if_neg c3]
  by_cases c4 : w < 120 + L
  · rw [if_pos c4]; simp only [MonthSpec, cumDays]; norm_num; omega
  rw [if_neg c4]
  by_cases c5 : w < 151 + L
  · rw [if_pos c5]; simp only [MonthSpec, cumDays]; norm_num; omega
  rw [if_neg c5]
  by_cases c6 : w < 181 + L
  · rw [if_pos c6]; simp only [MonthSpec, cumDays]; norm_num; omega
  rw [if_neg c6]
  by_cases c7 : w < 212 + L
  · rw [if_pos c7]; simp only [MonthSpec, cumDays]; norm_num; omega
  rw [if_neg c7]
  by_cases c8 : w < 243 + L
  · rw [if_pos c8]; simp only [MonthSpec, cumDays]; norm_num; omega
  rw [if_neg c8]
  by_cases c9 : w < 273 + L
  · rw [if_pos c9]; simp only [MonthSpec, cumDays]; norm_num; omega
  rw [if_neg c9]
  by_cases c10 : w < 304 + L
  · rw [if_pos c10]; simp only [MonthSpec, cumDays]; norm_num; omega
  rw [if_neg c10]
  by_cases c11 : w < 334 + L
  · rw [if_pos c11]; simp only [MonthSpec, cumDays]; norm_num; omega
  rw [if_neg c11]
  simp only [MonthSpec, cumDays]; norm_num; omega

/-- `MonthSpec` for the month extracted from a day number. -/
theorem monthFromDay_spec (d : Int) :
    MonthSpec (dayWithinYear d) (inLeapD d) (monthFromDay d) := by
  have hw := dayWithinYear_bounds d
  have hL := daysInYear_eq (yearFromDay d)
  exact monthFromDayAux_spec (dayWithinYear d) (inLeapD d) hw.1
    (by simp only [inLeapD]; omega)

/-- The 0-based month is in range. -/
theorem monthFromDay_bounds (d : Int) : 0 ≤ monthFromDay d ∧ monthFromDay d ≤ 11 :=
  ⟨(monthFromDay_spec d).1, (monthFromDay_spec d).2.1⟩

/-- `MakeDay` reassembles the fields extracted from a day number. -/
theorem makeDay_reconstruct (d : Int) :
    makeDay (yearFromDay d) (monthFromDay d) (dateFromDay d) = d := by
  have hm := monthFromDay_bounds d
  have h0 : (monthFromDay d) / 12 = 0 := by omega
  have h1 : (monthFromDay d) % 12 = monthFromDay d := by omega
  simp only [makeDay, h0, h1, add_zero, dateFromDay, dayWithinYear, inLeapD]
  omega

/-- The 1-based day of month is at least 1 and at most the month length. -/
theorem dateFromDay_bounds (d : Int) :
    1 ≤ dateFromDay d ∧ dateFromDay d ≤ daysInMonth (yearFromDay d) (monthFromDay d) := by
  have hc := monthFromDay_spec d
  simp only [MonthSpec, monthFromDay] at hc
  simp only [dateFromDay, daysInMonth, monthFromDay, inLeapD] at *
  omega

end JSDate

namespace JSDate

/-- A day number at a nonnegative offset inside year `y` has year `y`. -/
theorem yearFromDay_of_offset (y off : Int) (h0 : 0 ≤ off) (h1 : off < daysInYear y) :
    yearFromDay (dayFromYear y + off) = y := by
  have hsucc := dayFromYear_succ y
  exact yearFromDay_eq (by omega) (by omega)

/-- `cumDays` is nonnegative and at most the year length. -/
theorem cumDays_nonneg_le (m L : Int) (hm0 : 0 ≤ m) (hm1 : m ≤ 12) (hL : 0 ≤ L) :
    0 ≤ cumDays m L ∧ cumDays m L ≤ 365 + L := by
  interval_cases m <;> simp only [cumDays] <;> norm_num <;> omega

/-- The month selection chain inverts `cumDays` on a valid day of month. -/
theorem monthFromDayAux_of_cum (m L dt : Int) (hm0 : 0 ≤ m) (hm1 : m < 12)
    (hL0 : 0 ≤ L) (hL1 : L ≤ 1) (hd0 : 1 ≤ dt)
    (hd1 : dt ≤ cumDays (m + 1) L - cumDays m L) :
    monthFromDayAux (cumDays m L + dt - 1) L = m := by
  interval_cases m <;>
    · simp only [cumDays] at hd1 ⊢
      norm_num at hd1 ⊢
      unfold monthFromDayAux
      repeat rw [if_neg (by omega)]
      all_goals first
      | rfl
      | rw [if_pos (by omega)]

/-- The fields of `MakeDay` on a valid (year, 0-based month, day) triple. -/
theorem makeDay_fields (y m dt : Int) (hm0 : 0 ≤ m) (hm1 : m < 12)
    (hd0 : 1 ≤ dt) (hd1 : dt ≤ daysInMonth y m) :
    yearFromDay (makeDay y m dt) = y ∧ monthFromDay (makeDay y m dt) = m ∧
      dateFromDay (makeDay y m dt) = dt := by
  have hLy := daysInYear_eq y
  have h12a : m / 12 = 0 := by omega
  have h12b : m % 12 = m := by omega
  have hmk : makeDay y m dt = dayFromYear y + (cumDays m (daysInYear y - 365) + dt - 1) := by
    simp only [makeDay, h12a, h12b, add_zero]
    omega
  simp only [daysInMonth] at hd1
  have hc1 := cumDays_nonneg_le m (daysInYear y - 365) hm0 (by omega) (by omega)
  have hc2 := cumDays_nonneg_le (m + 1) (daysInYear y - 365) (by omega) (by omega) (by omega)
  have hy : yearFromDay (makeDay y m dt) = y := by
    rw [hmk]
    exact yearFromDay_of_offset _ _ (by omega) (by omega)
  have harg : dayWithinYear (makeDay y m dt) = cumDays m (daysInYear y - 365) + dt - 1 := by
    simp only [dayWithinYear, hy]
    rw [hmk]
    omega
  have hinL : inLeapD (makeDay y m dt) = daysInYear y - 365 := by
    simp only [inLeapD, hy]
  have hmo : monthFromDay (makeDay y m dt) = m := by
    simp only [monthFromDay, harg, hinL]
    exact monthFromDayAux_of_cum m _ dt hm0 hm1 (by omega) (by omega) hd0 hd1
  have hdt : dateFromDay (makeDay y m dt) = dt := by
    simp only [dateFromDay, harg, hmo, hinL]
    omega
  exact ⟨hy, hmo, hdt⟩

end JSDate

/-! ## Formatting -/

/-- The `Intl.DateTimeFormat` options object assembled by `format` in
locale-aware mode (field values are the literal option strings used by the
source; absent fields are `Option.none`). -/
structure IntlOptions where
  timeZone : String
  yearStyle : Option String
  monthStyle : Option String
  dayStyle : Option String
  hourStyle : Option String
  minuteStyle : Option String
  secondStyle : Option String
  hour12 : Option Bool
deriving DecidableEq

/-- `getTimeZoneFromLocale(locale)`: the locale-to-IANA-timezone table of the
source (default `America/New_York`). -/
def getTimeZoneFromLocale : LocaleType → String
  | .itIT => "Europe/Rome"
  | .frFR => "Europe/Paris"
  | .esES => "Europe/Madrid"
  | .deDE => "Europe/Berlin"
  | .ptBR => "America/Sao_Paulo"
  | .jaJP => "Asia/Tokyo"
  | .zhCN => "Asia/Shanghai"
  | .ruRU => "Europe/Moscow"
  | .enEN => "Europe/London"
  | .enUS => "America/New_York"

/-- `Date.prototype.toISOString()`: the ECMA-262 Date Time String Format in
UTC, with a 4-digit (or expanded signed 6-digit) year and millisecond
precision. -/
def isoString (t : Int) : List Char :=
  let d := JSDate.dayNumber t
  let y := JSDate.yearFromDay d
  let yearPart :=
    if 0 ≤ y ∧ y ≤ 9999 then padStart 4 '0' (natDigits y.toNat)
    else (if y < 0 then '-' else '+') :: padStart 6 '0' (natDigits y.natAbs)
  yearPart ++ '-' :: pad2 (JSDate.monthFromDay d + 1) ++ '-' :: pad2 (JSDate.dateFromDay d) ++
    'T' :: pad2 (JSDate.hourFromTime t) ++ ':' :: pad2 (JSDate.minFromTime t) ++
    ':' :: pad2 (JSDate.secFromTime t) ++ '.' :: padStart 3 '0' (intToChars (JSDate.msFromTime t)) ++ ['Z']

/-- The argument of the overloaded `format` method: absent, a pattern string,
or an options object. -/
inductive FormatArg
  | noArg
  | pat (f : DateFormatType)
  | opts (f : Option DateFormatType) (l : Option LocaleType)
deriving DecidableEq

namespace DateFlow

/-- `toISOString()`. -/
def toISOString (m : DateFlow) : List Char := isoString m.date

/-- `format(param)`.  `intl` is the host `Intl.DateTimeFormat` renderer the
locale-aware branch delegates to (a parameter of the embedding: its output is
host-defined).  The manual branch performs the literal token replacement of
the source. -/
def format (tz : JSDate.Tz) (intl : IntlOptions → Int → List Char)
    (m : DateFlow) (arg : FormatArg) : List Char :=
  let argFormat : Option DateFormatType :=
    match arg with
    | .noArg => none
    | .pat f => some f
    | .opts f _ => f
  let argLocale : Option LocaleType :=
    match arg with
    | .opts _ l => l
    | _ => none
  let dateFormat := argFormat <|> m.dateFormat
  let effectiveLocale := argLocale <|> m.locale
  match effectiveLocale with
  | some loc =>
    let base : IntlOptions :=
      ⟨getTimeZoneFromLocale loc, none, none, none, none, none, none, none⟩
    let options :=
      match dateFormat with
      | some f =>
        let p := f.pattern
        let slash := containsSeq ['/'] p
        let o1 := { base with
          yearStyle := some "numeric",
          monthStyle := some (if slash then "numeric" else "2-digit"),
          dayStyle := some (if slash then "numeric" else "2-digit") }
        if containsSeq ("HH:mm:ss".toList) p then
          { o1 with hourStyle := some "numeric", minuteStyle := some "numeric",
                    secondStyle := some "numeric", hour12 := some false }
        else if containsSeq ("HH:mm".toList) p then
          { o1 with hourStyle := some "numeric", minuteStyle := some "numeric",
                    hour12 := some false }
        else if containsSeq ("HH".toList) p then
          { o1 with hourStyle := some "numeric", hour12 := some false }
        else o1
      | none =>
        { base with
          yearStyle := some "numeric", monthStyle := some "2-digit",
          dayStyle := some "2-digit", hourStyle := some "numeric",
          minuteStyle := some "numeric", secondStyle := some "numeric",
          hour12 := some false }
    intl options m.date
  | none =>
    match dateFormat with
    | none => isoString m.date
    | some f =>
      let yearS := intToChars (year tz m)
      let monthS := pad2 (month tz m)
      let dayS := pad2 (day tz m)
      let hourS := pad2 (hour tz m)
      let minuteS := pad2 (minute tz m)
      let secondS := pad2 (second tz m)
      let r1 := replaceFirst ("YYYY".toList) yearS f.pattern
      let r2 := replaceFirst ("MM".toList) monthS r1
      let r3 := replaceFirst ("DD".toList) dayS r2
      let r4 := if containsSeq ("HH".toList) r3 then replaceFirst ("HH".toList) hourS r3 else r3
      let r5 := if containsSeq ("mm".toList) r4 then replaceFirst ("mm".toList) minuteS r4 else r4
      if containsSeq ("ss".toList) r5 then replaceFirst ("ss".toList) secondS r5 else r5

end DateFlow

/-! ## A two-cell heap model for the mutation claims

The source methods copy the wrapped `Date` (`const newDate = new
Date(this._date)`) and mutate only the copy; `this._date` is `readonly` and
never written.  `Heap` holds the time values of the original `Date` object and
of the working copy; `runMutOp` performs a mutating-looking method as a state
transformation on this heap, writing only the `copy` cell, and returns the
method's result. -/

/-- The time values of the two `Date` objects involved in a mutating-looking
method: the receiver's `_date` and the working copy. -/
structure Heap where
  orig : Int
  copy : Int
deriving DecidableEq

/-- The five mutating-looking operations of the public surface. -/
inductive MutOp
  | addOp (amount : Int) (unit : UnitType)
  | subtractOp (amount : Int) (unit : UnitType)
  | startOfOp (unit : UnitType)
  | endOfOp (unit : UnitType)
  | cloneOp
deriving DecidableEq

/-- Run a mutating-looking method on the heap: initialize the copy from the
receiver (`new Date(this._date)`), perform the method's writes on the copy
cell only, and return the final heap together with the returned instance. -/
def runMutOp (tz : JSDate.Tz) (dateFormat : Option DateFormatType)
    (locale : Option LocaleType) (op : MutOp) (h : Heap) : Heap × DateFlow :=
  let receiver : DateFlow := ⟨h.orig, dateFormat, locale⟩
  let result : DateFlow :=
    match op with
    | .addOp a u => DateFlow.add tz receiver a u
    | .subtractOp a u => DateFlow.subtract tz receiver a u
    | .startOfOp u => DateFlow.startOf tz receiver u
    | .endOfOp u => DateFlow.endOf tz receiver u
    | .cloneOp => DateFlow.clone receiver
  (⟨h.orig, result.date⟩, result)

/-! ## Claims -/

/-- C1: Immutability — every operation that returns a new Moment (add,
subtract, startOf, endOf, clone) writes only to the working copy, so the
receiver's `valueOf()` and all seven accessor values are unchanged after the
call. -/
theorem claim1_immutability (tz : JSDate.Tz) (fmt : Option DateFormatType)
    (loc : Option LocaleType) (op : MutOp) (h : Heap) :
    (runMutOp tz fmt loc op h).1.orig = h.orig ∧
    DateFlow.valueOf ⟨(runMutOp tz fmt loc op h).1.orig, fmt, loc⟩ =
      DateFlow.valueOf ⟨h.orig, fmt, loc⟩ ∧
    DateFlow.day tz ⟨(runMutOp tz fmt loc op h).1.orig, fmt, loc⟩ =
      DateFlow.day tz ⟨h.orig, fmt, loc⟩ ∧
    DateFlow.month tz ⟨(runMutOp tz fmt loc op h).1.orig, fmt, loc⟩ =
      DateFlow.month tz ⟨h.orig, fmt, loc⟩ ∧
    DateFlow.year tz ⟨(runMutOp tz fmt loc op h).1.orig, fmt, loc⟩ =
      DateFlow.year tz ⟨h.orig, fmt, loc⟩ ∧
    DateFlow.hour tz ⟨(runMutOp tz fmt loc op h).1.orig, fmt, loc⟩ =
      DateFlow.hour tz ⟨h.orig, fmt, loc⟩ ∧
    DateFlow.minute tz ⟨(runMutOp tz fmt loc op h).1.orig, fmt, loc⟩ =
      DateFlow.minute tz ⟨h.orig, fmt, loc⟩ ∧
    DateFlow.second tz ⟨(runMutOp tz fmt loc op h).1.orig, fmt, loc⟩ =
      DateFlow.second tz ⟨h.orig, fmt, loc⟩ ∧
    DateFlow.millisecond tz ⟨(runMutOp tz fmt loc op h).1.orig, fmt, loc⟩ =
      DateFlow.millisecond tz ⟨h.orig, fmt, loc⟩ :=
  ⟨rfl, rfl, rfl, rfl, rfl, rfl, rfl, rfl, rfl⟩

/-- C2: DST correction in `_modifyDate` — the minute shift by
`-(newOffset - originalOffset)` is applied exactly when a locale is set on the
instance and the timezone offset of the original instant differs from that of
the calendar-arithmetic result; otherwise the result is the uncorrected
calendar-arithmetic result; `dateFormat` and `locale` carry over unchanged,
and `add`/`subtract` are `_modifyDate` of `amount` / `-amount`. -/
theorem claim2_dst_correction (tz : JSDate.Tz) (m : DateFlow) (a : Int) (u : UnitType) :
    (DateFlow.modifyDate tz m a u).date =
      (if m.locale.isSome = true ∧
          JSDate.getTimezoneOffset tz m.date ≠
            JSDate.getTimezoneOffset tz (DateFlow.calendarStep tz m.date a u) then
        JSDate.setMinutes1 tz (DateFlow.calendarStep tz m.date a u)
          (JSDate.getMinutes tz (DateFlow.calendarStep tz m.date a u) -
            (JSDate.getTimezoneOffset tz (DateFlow.calendarStep tz m.date a u) -
              JSDate.getTimezoneOffset tz m.date))
      else DateFlow.calendarStep tz m.date a u) ∧
    (DateFlow.modifyDate tz m a u).dateFormat = m.dateFormat ∧
    (DateFlow.modifyDate tz m a u).locale = m.locale ∧
    DateFlow.add tz m a u = DateFlow.modifyDate tz m a u ∧
    DateFlow.subtract tz m a u = DateFlow.modifyDate tz m (-a) u := by
  refine ⟨?_, rfl, rfl, rfl, rfl⟩
  simp only [DateFlow.modifyDate]
  by_cases hl : m.locale.isSome = true
  · by_cases ho : JSDate.getTimezoneOffset tz m.date =
        JSDate.getTimezoneOffset tz (DateFlow.calendarStep tz m.date a u)
    · simp [hl, ho]
    · simp [hl, ho]
  · simp only [Bool.not_eq_true] at hl
    simp [hl]

/-- C3 counterexample: the error raised at construction is the fixed value
`Error("Invalid date provided")` for every unresolvable input — two distinct
invalid inputs produce identical errors, so the error cannot carry the
original input. -/
theorem claim3_error_payload_counterexample :
    DateFlow.construct (.fromString "not-a-date") none none =
      .error "Invalid date provided" ∧
    DateFlow.construct (.fromString "1999-99-99") none none =
      .error "Invalid date provided" ∧
    DateInput.fromString "not-a-date" ≠ DateInput.fromString "1999-99-99" := by
  refine ⟨rfl, rfl, by decide⟩

/-- C3 (amended): construction succeeds with the resolved instant exactly when
the input resolves, and otherwise fails with the fixed error
`"Invalid date provided"` (which does not carry the input); all other
operations are total functions of a valid Moment. -/
theorem claim3_construct_errors (input : DateInput) (fmt : Option DateFormatType)
    (loc : Option LocaleType) :
    (∀ t, resolveInput input = some t →
      DateFlow.construct input fmt loc = .ok ⟨t, fmt, loc⟩) ∧
    (resolveInput input = none →
      DateFlow.construct input fmt loc = .error "Invalid date provided") := by
  constructor
  · intro t ht
    simp [DateFlow.construct, ht]
  · intro ht
    simp [DateFlow.construct, ht]

/-- C3 witness: a resolvable input constructs the resolved Moment; an
unresolvable one produces the fixed error. -/
theorem claim3_construct_errors_witness :
    DateFlow.construct (.fromString "2024-02-10") none none =
      .ok ⟨1707523200000, none, none⟩ ∧
    DateFlow.construct (.fromString "not-a-date") none none =
      .error "Invalid date provided" :=
  ⟨(claim3_construct_errors (.fromString "2024-02-10") none none).1 1707523200000 (by decide),
   (claim3_construct_errors (.fromString "not-a-date") none none).2 rfl⟩

/-- The fixed unit lengths in milliseconds of the six non-calendar units. -/
def fixedUnitMillis : UnitType → Option Int
  | .millisecond => some 1
  | .second => some 1000
  | .minute => some 60000
  | .hour => some 3600000
  | .day => some 86400000
  | .week => some 604800000
  | .month => none
  | .year => none

/-- C4: for the six fixed units, `diff` is the raw millisecond delta divided
by the fixed unit length, truncated toward negative infinity; in particular
`Moment('2024-04-05').diff(Moment('2024-02-10'), 'day') = 55`. -/
theorem claim4_diff_fixed_units (tz : JSDate.Tz) :
    (∀ x y : DateFlow, ∀ u k, fixedUnitMillis u = some k →
      DateFlow.diff tz x y u = (DateFlow.valueOf x - DateFlow.valueOf y).fdiv k) ∧
    (∀ x y : DateFlow,
      DateFlow.construct (.fromString "2024-04-05") none none = .ok x →
      DateFlow.construct (.fromString "2024-02-10") none none = .ok y →
      DateFlow.diff tz x y .day = 55) := by
  constructor
  · intro x y u k hk
    cases u <;> simp [fixedUnitMillis] at hk <;> subst hk <;>
      simp [DateFlow.diff, DateFlow.valueOf, JSDate.getTime, Int.fdiv_one]
  · intro x y hx hy
    have e1 : DateFlow.construct (.fromString "2024-04-05") none none =
        Except.ok ⟨1712275200000, none, none⟩ := rfl
    have e2 : DateFlow.construct (.fromString "2024-02-10") none none =
        Except.ok ⟨1707523200000, none, none⟩ := rfl
    rw [e1] at hx
    rw [e2] at hy
    cases hx
    cases hy
    simp only [DateFlow.diff]
    decide

/-- C4 witness: the concrete day difference, and a negative delta showing
floor (not truncation toward zero) division. -/
theorem claim4_diff_fixed_units_witness :
    DateFlow.diff (JSDate.constTz 0) ⟨1712275200000, none, none⟩
      ⟨1707523200000, none, none⟩ .day = 55 ∧
    DateFlow.diff (JSDate.constTz 0) ⟨0, none, none⟩ ⟨1, none, none⟩ .second = -1 := by
  refine ⟨(claim4_diff_fixed_units (JSDate.constTz 0)).2 ⟨1712275200000, none, none⟩
    ⟨1707523200000, none, none⟩ rfl rfl, ?_⟩
  rw [(claim4_diff_fixed_units (JSDate.constTz 0)).1 ⟨0, none, none⟩ ⟨1, none, none⟩
    .second 1000 rfl]
  decide

/-- C5: `diff` with unit month is the calendar month difference computed from
the local year and 0-based month fields alone, and with unit year the
calendar year difference; in particular
`Moment('2024-02-29').diff(Moment('2024-01-31'), 'month') = 1`. -/
theorem claim5_diff_calendar (tz : JSDate.Tz) :
    (∀ x y : DateFlow, DateFlow.diff tz x y .month =
      (DateFlow.year tz x - DateFlow.year tz y) * 12 +
        ((DateFlow.month tz x - 1) - (DateFlow.month tz y - 1))) ∧
    (∀ x y : DateFlow, DateFlow.diff tz x y .year =
      DateFlow.year tz x - DateFlow.year tz y) ∧
    (∀ x y : DateFlow,
      DateFlow.construct (.fromString "2024-02-29") none none = .ok x →
      DateFlow.construct (.fromString "2024-01-31") none none = .ok y →
      DateFlow.diff (JSDate.constTz 0) x y .month = 1) := by
  refine ⟨?_, ?_, ?_⟩
  · intro x y
    simp only [DateFlow.diff, DateFlow.year, DateFlow.month]
    ring
  · intro x y
    simp only [DateFlow.diff, DateFlow.year]
  · intro x y hx hy
    have e1 : DateFlow.construct (.fromString "2024-02-29") none none =
        Except.ok ⟨1709164800000, none, none⟩ := rfl
    have e2 : DateFlow.construct (.fromString "2024-01-31") none none =
        Except.ok ⟨1706659200000, none, none⟩ := rfl
    rw [e1] at hx
    rw [e2] at hy
    cases hx
    cases hy
    decide

/-- C5 witness: the leap-day example evaluates to 1 month. -/
theorem claim5_diff_calendar_witness :
    DateFlow.diff (JSDate.constTz 0) ⟨1709164800000, none, none⟩
      ⟨1706659200000, none, none⟩ .month = 1 :=
  (claim5_diff_calendar (JSDate.constTz 0)).2.2 ⟨1709164800000, none, none⟩
    ⟨1706659200000, none, none⟩ rfl rfl

/-- C7: with no resolvable pattern and no resolvable locale, `format` returns
the UTC ISO-8601 rendering, identical to `toISOString()`, for every system
timezone and every host `Intl` renderer. -/
theorem claim7_format_fallback (tz : JSDate.Tz) (intl : IntlOptions → Int → List Char)
    (m : DateFlow) (h1 : m.dateFormat = none) (h2 : m.locale = none) :
    DateFlow.format tz intl m .noArg = DateFlow.toISOString m := by
  simp [DateFlow.format, DateFlow.toISOString, h1, h2]

/-- C7 witness: the fallback at the epoch with no configuration. -/
theorem claim7_format_fallback_witness :
    DateFlow.format (JSDate.constTz 0) (fun _ _ => []) ⟨0, none, none⟩ .noArg =
      DateFlow.toISOString ⟨0, none, none⟩ :=
  claim7_format_fallback (JSDate.constTz 0) (fun _ _ => []) ⟨0, none, none⟩ rfl rfl

/-! ## String lemmas for the manual formatting claim -/

/-- Digit characters produced by `digitChar` are decimal digits. -/
theorem digitChar_isDigit (n : Nat) : (digitChar n).isDigit = true := by
  unfold digitChar
  have h : n % 10 < 10 := Nat.mod_lt _ (by omega)
  generalize n % 10 = k at h
  interval_cases k <;> decide

/-- Every character of `natDigitsGo` is a decimal digit. -/
theorem mem_natDigitsGo (fuel : Nat) : ∀ n, ∀ c ∈ natDigitsGo fuel n, c.isDigit = true := by
  induction fuel with
  | zero => intro n c hc; cases hc
  | succ fuel ih =>
    intro n c hc
    rw [natDigitsGo] at hc
    split at hc
    · simp only [List.mem_singleton] at hc
      exact hc ▸ digitChar_isDigit n
    · rcases List.mem_append.mp hc with h | h
      · exact ih (n / 10) c h
      · simp only [List.mem_singleton] at h
        exact h ▸ digitChar_isDigit (n % 10)

/-- Every character of `natDigits` is a decimal digit. -/
theorem mem_natDigits (n : Nat) : ∀ c ∈ natDigits n, c.isDigit = true :=
  mem_natDigitsGo (n + 1) n

/-- Every character of an integer rendering is a digit or a minus sign. -/
theorem mem_intToChars (x : Int) (c : Char) (hc : c ∈ intToChars x) :
    c.isDigit = true ∨ c = '-' := by
  unfold intToChars at hc
  split at hc
  · rcases List.mem_cons.mp hc with h | h
    · exact Or.inr h
    · exact Or.inl (mem_natDigits _ c h)
  · exact Or.inl (mem_natDigits _ c hc)

/-- Every character of a left-padded rendering is the pad character or from
the original. -/
theorem mem_padStart (w : Nat) (p : Char) (s : List Char) (c : Char)
    (hc : c ∈ padStart w p s) : c = p ∨ c ∈ s := by
  unfold padStart at hc
  rcases List.mem_append.mp hc with h | h
  · exact Or.inl (List.eq_of_mem_replicate h)
  · exact Or.inr h

/-- Every character of `pad2` is a digit or a minus sign. -/
theorem mem_pad2 (x : Int) (c : Char) (hc : c ∈ pad2 x) :
    c.isDigit = true ∨ c = '-' := by
  rcases mem_padStart _ _ _ _ hc with h | h
  · exact Or.inl (h ▸ (by decide))
  · exact mem_intToChars x c h

/-- A non-digit, non-minus character differs from every character of an
integer rendering. -/
theorem ne_mem_intToChars (n : Char) (h1 : n.isDigit = false) (h2 : n ≠ '-')
    (x : Int) : ∀ c ∈ intToChars x, n ≠ c := by
  intro c hc heq
  rcases mem_intToChars x c hc with h | h
  · rw [heq] at h1; rw [h1] at h; cases h
  · exact h2 (heq.trans h)

/-- A non-digit, non-minus character differs from every character of `pad2`. -/
theorem ne_mem_pad2 (n : Char) (h1 : n.isDigit = false) (h2 : n ≠ '-')
    (x : Int) : ∀ c ∈ pad2 x, n ≠ c := by
  intro c hc heq
  rcases mem_pad2 x c hc with h | h
  · rw [heq] at h1; rw [h1] at h; cases h
  · exact h2 (heq.trans h)

/-- `replaceFirst` passes over a segment none of whose characters can start
the needle. -/
theorem replaceFirst_append (n : Char) (nt repl pre rest : List Char)
    (h : ∀ c ∈ pre, n ≠ c) :
    replaceFirst (n :: nt) repl (pre ++ rest) =
      pre ++ replaceFirst (n :: nt) repl rest := by
  induction pre with
  | nil => simp
  | cons c cs ih =>
    have hnc : (n == c) = false := by
      simp only [beq_eq_false_iff_ne]
      exact h c (List.mem_cons_self c cs)
    simp only [List.cons_append, replaceFirst, hasPrefix, hnc, Bool.false_and,
      Bool.false_eq_true, if_false]
    exact congrArg (c :: ·) (ih (fun c' hc' => h c' (List.mem_cons_of_mem _ hc')))

/-- `containsSeq` ignores a segment none of whose characters can start the
needle. -/
theorem containsSeq_append (n : Char) (nt pre rest : List Char)
    (h : ∀ c ∈ pre, n ≠ c) :
    containsSeq (n :: nt) (pre ++ rest) = containsSeq (n :: nt) rest := by
  induction pre with
  | nil => simp
  | cons c cs ih =>
    have hnc : (n == c) = false := by
      simp only [beq_eq_false_iff_ne]
      exact h c (List.mem_cons_self c cs)
    simp only [List.cons_append, containsSeq, hasPrefix, hnc, Bool.false_and,
      Bool.false_or]
    exact ih (fun c' hc' => h c' (List.mem_cons_of_mem _ hc'))

/-- `replaceFirst` passes over an integer rendering when the needle starts
with a non-digit, non-minus character. -/
theorem replaceFirst_skip_int (n : Char) (nt repl rest : List Char) (x : Int)
    (h1 : n.isDigit = false) (h2 : (n == '-') = false) :
    replaceFirst (n :: nt) repl (intToChars x ++ rest) =
      intToChars x ++ replaceFirst (n :: nt) repl rest :=
  replaceFirst_append n nt repl _ rest
    (ne_mem_intToChars n h1 (by simpa using h2) x)

/-- `replaceFirst` passes over a `pad2` rendering when the needle starts with
a non-digit, non-minus character. -/
theorem replaceFirst_skip_pad2 (n : Char) (nt repl rest : List Char) (x : Int)
    (h1 : n.isDigit = false) (h2 : (n == '-') = false) :
    replaceFirst (n :: nt) repl (pad2 x ++ rest) =
      pad2 x ++ replaceFirst (n :: nt) repl rest :=
  replaceFirst_append n nt repl _ rest
    (ne_mem_pad2 n h1 (by simpa using h2) x)

/-- `containsSeq` ignores an integer rendering when the needle starts with a
non-digit, non-minus character. -/
theorem containsSeq_skip_int (n : Char) (nt rest : List Char) (x : Int)
    (h1 : n.isDigit = false) (h2 : (n == '-') = false) :
    containsSeq (n :: nt) (intToChars x ++ rest) = containsSeq (n :: nt) rest :=
  containsSeq_append n nt _ rest (ne_mem_intToChars n h1 (by simpa using h2) x)

/-- `containsSeq` ignores a `pad2` rendering when the needle starts with a
non-digit, non-minus character. -/
theorem containsSeq_skip_pad2 (n : Char) (nt rest : List Char) (x : Int)
    (h1 : n.isDigit = false) (h2 : (n == '-') = false) :
    containsSeq (n :: nt) (pad2 x ++ rest) = containsSeq (n :: nt) rest :=
  containsSeq_append n nt _ rest (ne_mem_pad2 n h1 (by simpa using h2) x)

/-- `containsSeq` is false on a bare integer rendering for a needle starting
with a non-digit, non-minus character. -/
theorem containsSeq_int_nil (n : Char) (nt : List Char) (x : Int)
    (h1 : n.isDigit = false) (h2 : (n == '-') = false) :
    containsSeq (n :: nt) (intToChars x) = false := by
  have := containsSeq_skip_int n nt [] x h1 h2
  simpa [containsSeq] using this

/-- `containsSeq` is false on a bare `pad2` rendering for a needle starting
with a non-digit, non-minus character. -/
theorem containsSeq_pad2_nil (n : Char) (nt : List Char) (x : Int)
    (h1 : n.isDigit = false) (h2 : (n == '-') = false) :
    containsSeq (n :: nt) (pad2 x) = false := by
  have := containsSeq_skip_pad2 n nt [] x h1 h2
  simpa [containsSeq] using this

/-- `replaceFirst` leaves a bare integer rendering unchanged for a needle
starting with a non-digit, non-minus character. -/
theorem replaceFirst_int_nil (n : Char) (nt repl : List Char) (x : Int)
    (h1 : n.isDigit = false) (h2 : (n == '-') = false) :
    replaceFirst (n :: nt) repl (intToChars x) = intToChars x := by
  have := replaceFirst_skip_int n nt repl [] x h1 h2
  simpa [replaceFirst] using this

/-- `replaceFirst` leaves a bare `pad2` rendering unchanged for a needle
starting with a non-digit, non-minus character. -/
theorem replaceFirst_pad2_nil (n : Char) (nt repl : List Char) (x : Int)
    (h1 : n.isDigit = false) (h2 : (n == '-') = false) :
    replaceFirst (n :: nt) repl (pad2 x) = pad2 x := by
  have := replaceFirst_skip_pad2 n nt repl [] x h1 h2
  simpa [replaceFirst] using this

/-- Modelled from the claim wording (C6 as stated): single-occurrence token
substitution on the pattern with the year zero-padded to 4 digits, month/day
(and, when the token appears in the pattern, hour/minute/second) zero-padded
to 2 digits. -/
def manualFormatPadded (p : List Char) (y mo d h mi s : Int) : List Char :=
  let r1 := replaceFirst ("YYYY".toList) (padStart 4 '0' (intToChars y)) p
  let r2 := replaceFirst ("MM".toList) (pad2 mo) r1
  let r3 := replaceFirst ("DD".toList) (pad2 d) r2
  let r4 := if containsSeq ("HH".toList) p then replaceFirst ("HH".toList) (pad2 h) r3 else r3
  let r5 := if containsSeq ("mm".toList) p then replaceFirst ("mm".toList) (pad2 mi) r4 else r4
  if containsSeq ("ss".toList) p then replaceFirst ("ss".toList) (pad2 s) r5 else r5

/-- The amended C6 description: as the claim states it, except that the year
is rendered in decimal without padding (`Number.prototype.toString`), the
time-token guards testing presence in the pattern. -/
def manualFormatSpec (p : List Char) (y mo d h mi s : Int) : List Char :=
  let r1 := replaceFirst ("YYYY".toList) (intToChars y) p
  let r2 := replaceFirst ("MM".toList) (pad2 mo) r1
  let r3 := replaceFirst ("DD".toList) (pad2 d) r2
  let r4 := if containsSeq ("HH".toList) p then replaceFirst ("HH".toList) (pad2 h) r3 else r3
  let r5 := if containsSeq ("mm".toList) p then replaceFirst ("mm".toList) (pad2 mi) r4 else r4
  if containsSeq ("ss".toList) p then replaceFirst ("ss".toList) (pad2 s) r5 else r5

/-- The manual substitution chain of `format` (guards tested on the partially
substituted string, as the source does) agrees with the claim-side description
(guards tested on the pattern, year unpadded) on every enumerated pattern and
all field values. -/
theorem manualSubstEq (f : DateFormatType) (y mo d h mi s : Int) :
    (let p := f.pattern
     let r1 := replaceFirst ("YYYY".toList) (intToChars y) p
     let r2 := replaceFirst ("MM".toList) (pad2 mo) r1
     let r3 := replaceFirst ("DD".toList) (pad2 d) r2
     let r4 := if containsSeq ("HH".toList) r3 then replaceFirst ("HH".toList) (pad2 h) r3 else r3
     let r5 := if containsSeq ("mm".toList) r4 then replaceFirst ("mm".toList) (pad2 mi) r4 else r4
     if containsSeq ("ss".toList) r5 then replaceFirst ("ss".toList) (pad2 s) r5 else r5) =
    manualFormatSpec f.pattern y mo d h mi s := by
  cases f <;>
    simp [DateFormatType.pattern, manualFormatSpec,
      show ("YYYY".toList) = ['Y','Y','Y','Y'] from rfl,
      show ("MM".toList) = ['M','M'] from rfl,
      show ("DD".toList) = ['D','D'] from rfl,
      show ("HH".toList) = ['H','H'] from rfl,
      show ("mm".toList) = ['m','m'] from rfl,
      show ("ss".toList) = ['s','s'] from rfl,
      replaceFirst, hasPrefix, containsSeq, replaceFirst_skip_int,
      replaceFirst_skip_pad2, containsSeq_skip_int, containsSeq_skip_pad2,
      containsSeq_int_nil, containsSeq_pad2_nil, replaceFirst_int_nil,
      replaceFirst_pad2_nil]

/-- C6 counterexample: the source renders the year with `toString()` and no
padding, so for year 5 the pattern `YYYY-MM-DD` produces `5-01-01`, not the
`0005-01-01` that the claim's zero-padded-to-4-digits description predicts. -/
theorem claim6_year_padding_counterexample :
    DateFlow.year (JSDate.constTz 0) ⟨JSDate.makeDay 5 0 1 * 86400000, none, none⟩ = 5 ∧
    DateFlow.format (JSDate.constTz 0) (fun _ _ => [])
      ⟨JSDate.makeDay 5 0 1 * 86400000, none, none⟩ (.pat .ymdDash) = "5-01-01".toList ∧
    manualFormatPadded DateFormatType.ymdDash.pattern
      (DateFlow.year (JSDate.constTz 0) ⟨JSDate.makeDay 5 0 1 * 86400000, none, none⟩)
      (DateFlow.month (JSDate.constTz 0) ⟨JSDate.makeDay 5 0 1 * 86400000, none, none⟩)
      (DateFlow.day (JSDate.constTz 0) ⟨JSDate.makeDay 5 0 1 * 86400000, none, none⟩)
      (DateFlow.hour (JSDate.constTz 0) ⟨JSDate.makeDay 5 0 1 * 86400000, none, none⟩)
      (DateFlow.minute (JSDate.constTz 0) ⟨JSDate.makeDay 5 0 1 * 86400000, none, none⟩)
      (DateFlow.second (JSDate.constTz 0) ⟨JSDate.makeDay 5 0 1 * 86400000, none, none⟩) =
      "0005-01-01".toList ∧
    DateFlow.format (JSDate.constTz 0) (fun _ _ => [])
      ⟨JSDate.makeDay 5 0 1 * 86400000, none, none⟩ (.pat .ymdDash) ≠
      manualFormatPadded DateFormatType.ymdDash.pattern
        (DateFlow.year (JSDate.constTz 0) ⟨JSDate.makeDay 5 0 1 * 86400000, none, none⟩)
        (DateFlow.month (JSDate.constTz 0) ⟨JSDate.makeDay 5 0 1 * 86400000, none, none⟩)
        (DateFlow.day (JSDate.constTz 0) ⟨JSDate.makeDay 5 0 1 * 86400000, none, none⟩)
        (DateFlow.hour (JSDate.constTz 0) ⟨JSDate.makeDay 5 0 1 * 86400000, none, none⟩)
        (DateFlow.minute (JSDate.constTz 0) ⟨JSDate.makeDay 5 0 1 * 86400000, none, none⟩)
        (DateFlow.second (JSDate.constTz 0) ⟨JSDate.makeDay 5 0 1 * 86400000, none, none⟩) := by
  refine ⟨by decide, by decide, by decide, by decide⟩

/-- C6 (amended): manual-mode formatting (no locale on the instance, a pattern
resolved from the argument or the instance default) is the single-occurrence
token substitution described by the claim, except that the year is rendered in
decimal without zero-padding; time tokens are substituted only when present,
and all other characters pass through verbatim. -/
theorem claim6_manual_format (tz : JSDate.Tz) (intl : IntlOptions → Int → List Char)
    (m : DateFlow) (hloc : m.locale = none) (f : DateFormatType) :
    (DateFlow.format tz intl m (.pat f) =
      manualFormatSpec f.pattern (DateFlow.year tz m) (DateFlow.month tz m)
        (DateFlow.day tz m) (DateFlow.hour tz m) (DateFlow.minute tz m)
        (DateFlow.second tz m)) ∧
    (m.dateFormat = some f →
      DateFlow.format tz intl m .noArg =
        manualFormatSpec f.pattern (DateFlow.year tz m) (DateFlow.month tz m)
          (DateFlow.day tz m) (DateFlow.hour tz m) (DateFlow.minute tz m)
          (DateFlow.second tz m)) := by
  have key := manualSubstEq f (DateFlow.year tz m) (DateFlow.month tz m) (DateFlow.day tz m)
    (DateFlow.hour tz m) (DateFlow.minute tz m) (DateFlow.second tz m)
  constructor
  · simpa only [DateFlow.format, hloc, Option.some_orElse, Option.none_orElse] using key
  · intro hfmt
    simpa only [DateFlow.format, hloc, hfmt, Option.none_orElse] using key

/-- C6 witness: the amended substitution at the epoch with the full
date-time pattern. -/
theorem claim6_manual_format_witness :
    DateFlow.format (JSDate.constTz 0) (fun _ _ => []) ⟨0, none, none⟩ (.pat .ymdDashHms) =
      manualFormatSpec DateFormatType.ymdDashHms.pattern
        (DateFlow.year (JSDate.constTz 0) ⟨0, none, none⟩)
        (DateFlow.month (JSDate.constTz 0) ⟨0, none, none⟩)
        (DateFlow.day (JSDate.constTz 0) ⟨0, none, none⟩)
        (DateFlow.hour (JSDate.constTz 0) ⟨0, none, none⟩)
        (DateFlow.minute (JSDate.constTz 0) ⟨0, none, none⟩)
        (DateFlow.second (JSDate.constTz 0) ⟨0, none, none⟩) ∧
    manualFormatSpec DateFormatType.ymdDashHms.pattern
      (DateFlow.year (JSDate.constTz 0) ⟨0, none, none⟩)
      (DateFlow.month (JSDate.constTz 0) ⟨0, none, none⟩)
      (DateFlow.day (JSDate.constTz 0) ⟨0, none, none⟩)
      (DateFlow.hour (JSDate.constTz 0) ⟨0, none, none⟩)
      (DateFlow.minute (JSDate.constTz 0) ⟨0, none, none⟩)
      (DateFlow.second (JSDate.constTz 0) ⟨0, none, none⟩) =
      "1970-01-01 00:00:00".toList :=
  ⟨(claim6_manual_format (JSDate.constTz 0) (fun _ _ => []) ⟨0, none, none⟩ rfl .ymdDashHms).1,
   by decide⟩

/-! ## Lemmas for range snapping under a fixed-offset timezone -/

namespace JSDate

/-- `LocalTime` inverts `UTC` under a fixed offset. -/
theorem localTime_fromLocal_const (c u : Int) :
    localTime (constTz c) (fromLocal (constTz c) u) = u := by
  simp [localTime, fromLocal, constTz]

/-- `MakeDay` is an affine function of the date argument. -/
theorem makeDay_shift (y m a b : Int) : makeDay y m a = makeDay y m b + (a - b) := by
  simp only [makeDay]
  omega

/-- `MakeDay` of January 1st is the first day of the year. -/
theorem makeDay_jan1 (y : Int) : makeDay y 0 1 = dayFromYear y := by
  have h1 : (0 : Int) / 12 = 0 := by decide
  have h2 : (0 : Int) % 12 = 0 := by decide
  simp only [makeDay, h1, h2, add_zero]
  simp [cumDays]

/-- `MakeDay` of December 31st is the last day of the year. -/
theorem makeDay_dec31 (y : Int) : makeDay y 11 31 = dayFromYear y + daysInYear y - 1 := by
  have h1 : (11 : Int) / 12 = 0 := by decide
  have h2 : (11 : Int) % 12 = 11 := by decide
  simp only [makeDay, h1, h2, add_zero]
  simp only [cumDays]
  norm_num
  omega

/-- Every month has at least one day. -/
theorem daysInMonth_pos (y m : Int) (h0 : 0 ≤ m) (h1 : m ≤ 11) : 1 ≤ daysInMonth y m := by
  have hL := daysInYear_eq y
  unfold daysInMonth
  interval_cases m <;> simp [cumDays] <;> omega

/-- Day 0 of the next month is the last day of the current month. -/
theorem makeDay_next_zero (y m : Int) (h0 : 0 ≤ m) (h1 : m ≤ 11) :
    makeDay y (m + 1) 0 = makeDay y m (daysInMonth y m) := by
  rcases eq_or_lt_of_le h1 with h | h
  · subst h
    have hs := dayFromYear_succ y
    have h1 : (12 : Int) / 12 = 1 := by decide
    have h2 : (12 : Int) % 12 = 0 := by decide
    have h3 : (11 : Int) / 12 = 0 := by decide
    have h4 : (11 : Int) % 12 = 11 := by decide
    simp only [makeDay, daysInMonth, h1, h2, h3, h4, add_zero]
    simp only [cumDays]
    norm_num
    omega
  · have h1 : (m + 1) / 12 = 0 := by omega
    have h2 : (m + 1) % 12 = m + 1 := by omega
    have h3 : m / 12 = 0 := by omega
    have h4 : m % 12 = m := by omega
    simp only [makeDay, daysInMonth, h1, h2, h3, h4, add_zero]
    omega

end JSDate

/-- C8: bracketing of range snapping — for every fixed-offset system timezone,
every Moment and every unit, `startOf(u).valueOf() ≤ valueOf() ≤
endOf(u).valueOf()`, and for the millisecond unit both snaps leave the
instant unchanged. -/
theorem claim8_bracket (c t : Int) (fmt : Option DateFormatType)
    (loc : Option LocaleType) (u : UnitType) :
    (DateFlow.startOf (JSDate.constTz c) ⟨t, fmt, loc⟩ u).date ≤ t ∧
    t ≤ (DateFlow.endOf (JSDate.constTz c) ⟨t, fmt, loc⟩ u).date ∧
    (DateFlow.startOf (JSDate.constTz c) ⟨t, fmt, loc⟩ .millisecond).date = t ∧
    (DateFlow.endOf (JSDate.constTz c) ⟨t, fmt, loc⟩ .millisecond).date = t := by
  refine ⟨?_, ?_, rfl, rfl⟩
  · cases u
    case millisecond => exact le_refl t
    case day =>
      simp only [DateFlow.startOf, JSDate.setHours4, JSDate.localTime, JSDate.fromLocal,
        JSDate.makeDate, JSDate.makeTime, JSDate.dayNumber, JSDate.constTz]
      omega
    case hour =>
      simp only [DateFlow.startOf, JSDate.setMinutes3, JSDate.localTime, JSDate.fromLocal,
        JSDate.makeDate, JSDate.makeTime, JSDate.dayNumber, JSDate.hourFromTime, JSDate.constTz]
      omega
    case minute =>
      simp only [DateFlow.startOf, JSDate.setSeconds2, JSDate.localTime, JSDate.fromLocal,
        JSDate.makeDate, JSDate.makeTime, JSDate.dayNumber, JSDate.hourFromTime,
        JSDate.minFromTime, JSDate.constTz]
      omega
    case second =>
      simp only [DateFlow.startOf, JSDate.setMilliseconds1, JSDate.localTime, JSDate.fromLocal,
        JSDate.makeDate, JSDate.makeTime, JSDate.dayNumber, JSDate.hourFromTime,
        JSDate.minFromTime, JSDate.secFromTime, JSDate.constTz]
      omega
    case week =>
      simp only [DateFlow.startOf, JSDate.setHours4, JSDate.setDate1, JSDate.getDate,
        JSDate.getDay, JSDate.localTime, JSDate.fromLocal, JSDate.makeDate, JSDate.makeTime,
        JSDate.dayNumber, JSDate.timeWithinDay, JSDate.weekDay, JSDate.constTz]
      have hrec := JSDate.makeDay_reconstruct ((t - c * 60000) / 86400000)
      have hshift := JSDate.makeDay_shift
        (JSDate.yearFromDay ((t - c * 60000) / 86400000))
        (JSDate.monthFromDay ((t - c * 60000) / 86400000))
        (JSDate.dateFromDay ((t - c * 60000) / 86400000) -
          ((t - c * 60000) / 86400000 + 4) % 7)
        (JSDate.dateFromDay ((t - c * 60000) / 86400000))
      omega
    case month =>
      simp only [DateFlow.startOf, JSDate.setHours4, JSDate.setDate1, JSDate.getDate,
        JSDate.localTime, JSDate.fromLocal, JSDate.makeDate, JSDate.makeTime,
        JSDate.dayNumber, JSDate.timeWithinDay, JSDate.constTz]
      have hrec := JSDate.makeDay_reconstruct ((t - c * 60000) / 86400000)
      have hshift := JSDate.makeDay_shift
        (JSDate.yearFromDay ((t - c * 60000) / 86400000))
        (JSDate.monthFromDay ((t - c * 60000) / 86400000))
        1 (JSDate.dateFromDay ((t - c * 60000) / 86400000))
      have hb := JSDate.dateFromDay_bounds ((t - c * 60000) / 86400000)
      omega
    case year =>
      simp only [DateFlow.startOf, JSDate.setHours4, JSDate.setMonth2, JSDate.localTime,
        JSDate.fromLocal, JSDate.makeDate, JSDate.makeTime, JSDate.dayNumber,
        JSDate.timeWithinDay, JSDate.constTz]
      have hj := JSDate.makeDay_jan1 (JSDate.yearFromDay ((t - c * 60000) / 86400000))
      have hspec := JSDate.yearFromDay_spec ((t - c * 60000) / 86400000)
      omega
  · cases u
    case millisecond => exact le_refl t
    case day =>
      simp only [DateFlow.endOf, JSDate.setHours4, JSDate.localTime, JSDate.fromLocal,
        JSDate.makeDate, JSDate.makeTime, JSDate.dayNumber, JSDate.constTz]
      omega
    case hour =>
      simp only [DateFlow.endOf, JSDate.setMinutes3, JSDate.localTime, JSDate.fromLocal,
        JSDate.makeDate, JSDate.makeTime, JSDate.dayNumber, JSDate.hourFromTime, JSDate.constTz]
      omega
    case minute =>
      simp only [DateFlow.endOf, JSDate.setSeconds2, JSDate.localTime, JSDate.fromLocal,
        JSDate.makeDate, JSDate.makeTime, JSDate.dayNumber, JSDate.hourFromTime,
        JSDate.minFromTime, JSDate.constTz]
      omega
    case second =>
      simp only [DateFlow.endOf, JSDate.setMilliseconds1, JSDate.localTime, JSDate.fromLocal,
        JSDate.makeDate, JSDate.makeTime, JSDate.dayNumber, JSDate.hourFromTime,
        JSDate.minFromTime, JSDate.secFromTime, JSDate.constTz]
      omega
    case week =>
      simp only [DateFlow.endOf, JSDate.setHours4, JSDate.setDate1, JSDate.getDate,
        JSDate.getDay, JSDate.localTime, JSDate.fromLocal, JSDate.makeDate, JSDate.makeTime,
        JSDate.dayNumber, JSDate.timeWithinDay, JSDate.weekDay, JSDate.constTz]
      have hrec := JSDate.makeDay_reconstruct ((t - c * 60000) / 86400000)
      have hshift := JSDate.makeDay_shift
        (JSDate.yearFromDay ((t - c * 60000) / 86400000))
        (JSDate.monthFromDay ((t - c * 60000) / 86400000))
        (JSDate.dateFromDay ((t - c * 60000) / 86400000) +
          (6 - ((t - c * 60000) / 86400000 + 4) % 7))
        (JSDate.dateFromDay ((t - c * 60000) / 86400000))
      omega
    case month =>
      simp only [DateFlow.endOf, JSDate.setHours4, JSDate.setMonth2, JSDate.getMonth,
        JSDate.localTime, JSDate.fromLocal, JSDate.makeDate, JSDate.makeTime,
        JSDate.dayNumber, JSDate.timeWithinDay, JSDate.constTz]
      have hb := JSDate.dateFromDay_bounds ((t - c * 60000) / 86400000)
      have hm := JSDate.monthFromDay_bounds ((t - c * 60000) / 86400000)
      have hnz := JSDate.makeDay_next_zero
        (JSDate.yearFromDay ((t - c * 60000) / 86400000))
        (JSDate.monthFromDay ((t - c * 60000) / 86400000)) hm.1 hm.2
      have hshift := JSDate.makeDay_shift
        (JSDate.yearFromDay ((t - c * 60000) / 86400000))
        (JSDate.monthFromDay ((t - c * 60000) / 86400000))
        (JSDate.daysInMonth (JSDate.yearFromDay ((t - c * 60000) / 86400000))
          (JSDate.monthFromDay ((t - c * 60000) / 86400000)))
        (JSDate.dateFromDay ((t - c * 60000) / 86400000))
      have hrec := JSDate.makeDay_reconstruct ((t - c * 60000) / 86400000)
      omega
    case year =>
      simp only [DateFlow.endOf, JSDate.setHours4, JSDate.setMonth2, JSDate.localTime,
        JSDate.fromLocal, JSDate.makeDate, JSDate.makeTime, JSDate.dayNumber,
        JSDate.timeWithinDay, JSDate.constTz]
      have hd := JSDate.makeDay_dec31 (JSDate.yearFromDay ((t - c * 60000) / 86400000))
      have hspec := JSDate.yearFromDay_spec ((t - c * 60000) / 86400000)
      have hsucc := JSDate.dayFromYear_succ (JSDate.yearFromDay ((t - c * 60000) / 86400000))
      omega

/-- Closed form of `startOf('day')` under a fixed offset. -/
theorem startOf_day_val (c : Int) (m : DateFlow) :
    (DateFlow.startOf (JSDate.constTz c) m .day).date =
      ((m.date - c * 60000) / 86400000) * 86400000 + c * 60000 := by
  simp only [DateFlow.startOf, JSDate.setHours4, JSDate.localTime, JSDate.fromLocal,
    JSDate.makeDate, JSDate.makeTime, JSDate.dayNumber, JSDate.constTz]
  omega

/-- Closed form of `startOf('hour')` under a fixed offset. -/
theorem startOf_hour_val (c : Int) (m : DateFlow) :
    (DateFlow.startOf (JSDate.constTz c) m .hour).date =
      ((m.date - c * 60000) / 3600000) * 3600000 + c * 60000 := by
  simp only [DateFlow.startOf, JSDate.setMinutes3, JSDate.localTime, JSDate.fromLocal,
    JSDate.makeDate, JSDate.makeTime, JSDate.dayNumber, JSDate.hourFromTime, JSDate.constTz]
  omega

/-- Closed form of `startOf('minute')` under a fixed offset. -/
theorem startOf_minute_val (c : Int) (m : DateFlow) :
    (DateFlow.startOf (JSDate.constTz c) m .minute).date =
      ((m.date - c * 60000) / 60000) * 60000 + c * 60000 := by
  simp only [DateFlow.startOf, JSDate.setSeconds2, JSDate.localTime, JSDate.fromLocal,
    JSDate.makeDate, JSDate.makeTime, JSDate.dayNumber, JSDate.hourFromTime,
    JSDate.minFromTime, JSDate.constTz]
  omega

/-- Closed form of `startOf('second')` under a fixed offset. -/
theorem startOf_second_val (c : Int) (m : DateFlow) :
    (DateFlow.startOf (JSDate.constTz c) m .second).date =
      ((m.date - c * 60000) / 1000) * 1000 + c * 60000 := by
  simp only [DateFlow.startOf, JSDate.setMilliseconds1, JSDate.localTime, JSDate.fromLocal,
    JSDate.makeDate, JSDate.makeTime, JSDate.dayNumber, JSDate.hourFromTime,
    JSDate.minFromTime, JSDate.secFromTime, JSDate.constTz]
  omega

/-- Closed form of `startOf('week')` under a fixed offset. -/
theorem startOf_week_val (c : Int) (m : DateFlow) :
    (DateFlow.startOf (JSDate.constTz c) m .week).date =
      ((m.date - c * 60000) / 86400000 - ((m.date - c * 60000) / 86400000 + 4) % 7) * 86400000
        + c * 60000 := by
  simp only [DateFlow.startOf, JSDate.setHours4, JSDate.setDate1, JSDate.getDate,
    JSDate.getDay, JSDate.localTime, JSDate.fromLocal, JSDate.makeDate, JSDate.makeTime,
    JSDate.dayNumber, JSDate.timeWithinDay, JSDate.weekDay, JSDate.constTz]
  have hrec := JSDate.makeDay_reconstruct ((m.date - c * 60000) / 86400000)
  have hshift := JSDate.makeDay_shift
    (JSDate.yearFromDay ((m.date - c * 60000) / 86400000))
    (JSDate.monthFromDay ((m.date - c * 60000) / 86400000))
    (JSDate.dateFromDay ((m.date - c * 60000) / 86400000) -
      ((m.date - c * 60000) / 86400000 + 4) % 7)
    (JSDate.dateFromDay ((m.date - c * 60000) / 86400000))
  omega

/-- Closed form of `startOf('month')` under a fixed offset. -/
theorem startOf_month_val (c : Int) (m : DateFlow) :
    (DateFlow.startOf (JSDate.constTz c) m .month).date =
      ((m.date - c * 60000) / 86400000 + 1 -
        JSDate.dateFromDay ((m.date - c * 60000) / 86400000)) * 86400000 + c * 60000 := by
  simp only [DateFlow.startOf, JSDate.setHours4, JSDate.setDate1, JSDate.getDate,
    JSDate.localTime, JSDate.fromLocal, JSDate.makeDate, JSDate.makeTime,
    JSDate.dayNumber, JSDate.timeWithinDay, JSDate.constTz]
  have hrec := JSDate.makeDay_reconstruct ((m.date - c * 60000) / 86400000)
  have hshift := JSDate.makeDay_shift
    (JSDate.yearFromDay ((m.date - c * 60000) / 86400000))
    (JSDate.monthFromDay ((m.date - c * 60000) / 86400000))
    1 (JSDate.dateFromDay ((m.date - c * 60000) / 86400000))
  omega

/-- Closed form of `startOf('year')` under a fixed offset. -/
theorem startOf_year_val (c : Int) (m : DateFlow) :
    (DateFlow.startOf (JSDate.constTz c) m .year).date =
      JSDate.dayFromYear (JSDate.yearFromDay ((m.date - c * 60000) / 86400000)) * 86400000
        + c * 60000 := by
  simp only [DateFlow.startOf, JSDate.setHours4, JSDate.setMonth2, JSDate.localTime,
    JSDate.fromLocal, JSDate.makeDate, JSDate.makeTime, JSDate.dayNumber,
    JSDate.timeWithinDay, JSDate.constTz]
  have hj := JSDate.makeDay_jan1 (JSDate.yearFromDay ((m.date - c * 60000) / 86400000))
  have hspec := JSDate.yearFromDay_spec ((m.date - c * 60000) / 86400000)
  omega

/-- Closed form of `endOf('day')` under a fixed offset. -/
theorem endOf_day_val (c : Int) (m : DateFlow) :
    (DateFlow.endOf (JSDate.constTz c) m .day).date =
      ((m.date - c * 60000) / 86400000) * 86400000 + 86399999 + c * 60000 := by
  simp only [DateFlow.endOf, JSDate.setHours4, JSDate.localTime, JSDate.fromLocal,
    JSDate.makeDate, JSDate.makeTime, JSDate.dayNumber, JSDate.constTz]
  omega

/-- Closed form of `endOf('hour')` under a fixed offset. -/
theorem endOf_hour_val (c : Int) (m : DateFlow) :
    (DateFlow.endOf (JSDate.constTz c) m .hour).date =
      ((m.date - c * 60000) / 3600000) * 3600000 + 3599999 + c * 60000 := by
  simp only [DateFlow.endOf, JSDate.setMinutes3, JSDate.localTime, JSDate.fromLocal,
    JSDate.makeDate, JSDate.makeTime, JSDate.dayNumber, JSDate.hourFromTime, JSDate.constTz]
  omega

/-- Closed form of `endOf('minute')` under a fixed offset. -/
theorem endOf_minute_val (c : Int) (m : DateFlow) :
    (DateFlow.endOf (JSDate.constTz c) m .minute).date =
      ((m.date - c * 60000) / 60000) * 60000 + 59999 + c * 60000 := by
  simp only [DateFlow.endOf, JSDate.setSeconds2, JSDate.localTime, JSDate.fromLocal,
    JSDate.makeDate, JSDate.makeTime, JSDate.dayNumber, JSDate.hourFromTime,
    JSDate.minFromTime, JSDate.constTz]
  omega

/-- Closed form of `endOf('second')` under a fixed offset. -/
theorem endOf_second_val (c : Int) (m : DateFlow) :
    (DateFlow.endOf (JSDate.constTz c) m .second).date =
      ((m.date - c * 60000) / 1000) * 1000 + 999 + c * 60000 := by
  simp only [DateFlow.endOf, JSDate.setMilliseconds1, JSDate.localTime, JSDate.fromLocal,
    JSDate.makeDate, JSDate.makeTime, JSDate.dayNumber, JSDate.hourFromTime,
    JSDate.minFromTime, JSDate.secFromTime, JSDate.constTz]
  omega

/-- Closed form of `endOf('week')` under a fixed offset. -/
theorem endOf_week_val (c : Int) (m : DateFlow) :
    (DateFlow.endOf (JSDate.constTz c) m .week).date =
      ((m.date - c * 60000) / 86400000 + (6 - ((m.date - c * 60000) / 86400000 + 4) % 7)) * 86400000
        + 86399999 + c * 60000 := by
  simp only [DateFlow.endOf, JSDate.setHours4, JSDate.setDate1, JSDate.getDate,
    JSDate.getDay, JSDate.localTime, JSDate.fromLocal, JSDate.makeDate, JSDate.makeTime,
    JSDate.dayNumber, JSDate.timeWithinDay, JSDate.weekDay, JSDate.constTz]
  have hrec := JSDate.makeDay_reconstruct ((m.date - c * 60000) / 86400000)
  have hshift := JSDate.makeDay_shift
    (JSDate.yearFromDay ((m.date - c * 60000) / 86400000))
    (JSDate.monthFromDay ((m.date - c * 60000) / 86400000))
    (JSDate.dateFromDay ((m.date - c * 60000) / 86400000) +
      (6 - ((m.date - c * 60000) / 86400000 + 4) % 7))
    (JSDate.dateFromDay ((m.date - c * 60000) / 86400000))
  omega

/-- Closed form of `endOf('month')` under a fixed offset. -/
theorem endOf_month_val (c : Int) (m : DateFlow) :
    (DateFlow.endOf (JSDate.constTz c) m .month).date =
      ((m.date - c * 60000) / 86400000 +
        JSDate.daysInMonth (JSDate.yearFromDay ((m.date - c * 60000) / 86400000))
          (JSDate.monthFromDay ((m.date - c * 60000) / 86400000)) -
        JSDate.dateFromDay ((m.date - c * 60000) / 86400000)) * 86400000
        + 86399999 + c * 60000 := by
  simp only [DateFlow.endOf, JSDate.setHours4, JSDate.setMonth2, JSDate.getMonth,
    JSDate.localTime, JSDate.fromLocal, JSDate.makeDate, JSDate.makeTime,
    JSDate.dayNumber, JSDate.timeWithinDay, JSDate.constTz]
  have hm := JSDate.monthFromDay_bounds ((m.date - c * 60000) / 86400000)
  have hnz := JSDate.makeDay_next_zero
    (JSDate.yearFromDay ((m.date - c * 60000) / 86400000))
    (JSDate.monthFromDay ((m.date - c * 60000) / 86400000)) hm.1 hm.2
  have hshift := JSDate.makeDay_shift
    (JSDate.yearFromDay ((m.date - c * 60000) / 86400000))
    (JSDate.monthFromDay ((m.date - c * 60000) / 86400000))
    (JSDate.daysInMonth (JSDate.yearFromDay ((m.date - c * 60000) / 86400000))
      (JSDate.monthFromDay ((m.date - c * 60000) / 86400000)))
    (JSDate.dateFromDay ((m.date - c * 60000) / 86400000))
  have hrec := JSDate.makeDay_reconstruct ((m.date - c * 60000) / 86400000)
  omega

/-- Closed form of `endOf('year')` under a fixed offset. -/
theorem endOf_year_val (c : Int) (m : DateFlow) :
    (DateFlow.endOf (JSDate.constTz c) m .year).date =
      (JSDate.dayFromYear (JSDate.yearFromDay ((m.date - c * 60000) / 86400000)) +
        JSDate.daysInYear (JSDate.yearFromDay ((m.date - c * 60000) / 86400000)) - 1) * 86400000
        + 86399999 + c * 60000 := by
  simp only [DateFlow.endOf, JSDate.setHours4, JSDate.setMonth2, JSDate.localTime,
    JSDate.fromLocal, JSDate.makeDate, JSDate.makeTime, JSDate.dayNumber,
    JSDate.timeWithinDay, JSDate.constTz]
  have hd := JSDate.makeDay_dec31 (JSDate.yearFromDay ((m.date - c * 60000) / 86400000))
  omega

/-- C9: week snapping — `startOf('week')` is the preceding (or same) Sunday at
00:00:00.000 local time and `endOf('week')` the following (or same) Saturday
at 23:59:59.999 local time, for every fixed-offset timezone and regardless of
the locale configured on the instance. -/
theorem claim9_week_snapping (c : Int) (m : DateFlow) :
    JSDate.getDay (JSDate.constTz c)
      (DateFlow.startOf (JSDate.constTz c) m .week).date = 0 ∧
    DateFlow.hour (JSDate.constTz c) (DateFlow.startOf (JSDate.constTz c) m .week) = 0 ∧
    DateFlow.minute (JSDate.constTz c) (DateFlow.startOf (JSDate.constTz c) m .week) = 0 ∧
    DateFlow.second (JSDate.constTz c) (DateFlow.startOf (JSDate.constTz c) m .week) = 0 ∧
    DateFlow.millisecond (JSDate.constTz c) (DateFlow.startOf (JSDate.constTz c) m .week) = 0 ∧
    JSDate.dayNumber (JSDate.localTime (JSDate.constTz c)
        (DateFlow.startOf (JSDate.constTz c) m .week).date) ≤
      JSDate.dayNumber (JSDate.localTime (JSDate.constTz c) m.date) ∧
    JSDate.dayNumber (JSDate.localTime (JSDate.constTz c) m.date) -
      JSDate.dayNumber (JSDate.localTime (JSDate.constTz c)
        (DateFlow.startOf (JSDate.constTz c) m .week).date) < 7 ∧
    JSDate.getDay (JSDate.constTz c)
      (DateFlow.endOf (JSDate.constTz c) m .week).date = 6 ∧
    DateFlow.hour (JSDate.constTz c) (DateFlow.endOf (JSDate.constTz c) m .week) = 23 ∧
    DateFlow.minute (JSDate.constTz c) (DateFlow.endOf (JSDate.constTz c) m .week) = 59 ∧
    DateFlow.second (JSDate.constTz c) (DateFlow.endOf (JSDate.constTz c) m .week) = 59 ∧
    DateFlow.millisecond (JSDate.constTz c) (DateFlow.endOf (JSDate.constTz c) m .week) = 999 ∧
    JSDate.dayNumber (JSDate.localTime (JSDate.constTz c) m.date) ≤
      JSDate.dayNumber (JSDate.localTime (JSDate.constTz c)
        (DateFlow.endOf (JSDate.constTz c) m .week).date) ∧
    JSDate.dayNumber (JSDate.localTime (JSDate.constTz c)
        (DateFlow.endOf (JSDate.constTz c) m .week).date) -
      JSDate.dayNumber (JSDate.localTime (JSDate.constTz c) m.date) < 7 ∧
    (DateFlow.startOf (JSDate.constTz c) m .week).date =
      (DateFlow.startOf (JSDate.constTz c) ⟨m.date, none, none⟩ .week).date ∧
    (DateFlow.endOf (JSDate.constTz c) m .week).date =
      (DateFlow.endOf (JSDate.constTz c) ⟨m.date, none, none⟩ .week).date := by
  have hs := startOf_week_val c m
  have he := endOf_week_val c m
  have hs2 : (DateFlow.startOf (JSDate.constTz c) ⟨m.date, none, none⟩ .week).date =
      ((m.date - c * 60000) / 86400000 - ((m.date - c * 60000) / 86400000 + 4) % 7)
        * 86400000 + c * 60000 :=
    startOf_week_val c ⟨m.date, none, none⟩
  have he2 : (DateFlow.endOf (JSDate.constTz c) ⟨m.date, none, none⟩ .week).date =
      ((m.date - c * 60000) / 86400000 + (6 - ((m.date - c * 60000) / 86400000 + 4) % 7))
        * 86400000 + 86399999 + c * 60000 :=
    endOf_week_val c ⟨m.date, none, none⟩
  simp only [DateFlow.hour, DateFlow.minute, DateFlow.second, DateFlow.millisecond,
    JSDate.getDay, JSDate.getHours, JSDate.getMinutes, JSDate.getSeconds,
    JSDate.getMilliseconds]
  simp only [hs, he, hs2, he2]
  simp only [JSDate.weekDay, JSDate.hourFromTime, JSDate.minFromTime,
    JSDate.secFromTime, JSDate.msFromTime, JSDate.dayNumber, JSDate.localTime,
    JSDate.constTz]
  clear hs he hs2 he2
  refine ⟨?_, ?_, ?_, ?_, ?_, ?_, ?_, ?_, ?_, ?_, ?_, ?_, ?_, ?_, ?_, ?_⟩
  all_goals first
  | omega
  | trivial

/-- C10: idempotence of range snapping — for every fixed-offset timezone,
every Moment and every unit, `startOf(u)` and `endOf(u)` are fixed points of
themselves (same `valueOf`). -/
theorem claim10_snap_idempotent (c : Int) (m : DateFlow) (u : UnitType) :
    DateFlow.valueOf (DateFlow.startOf (JSDate.constTz c)
        (DateFlow.startOf (JSDate.constTz c) m u) u) =
      DateFlow.valueOf (DateFlow.startOf (JSDate.constTz c) m u) ∧
    DateFlow.valueOf (DateFlow.endOf (JSDate.constTz c)
        (DateFlow.endOf (JSDate.constTz c) m u) u) =
      DateFlow.valueOf (DateFlow.endOf (JSDate.constTz c) m u) := by
  constructor
  · cases u
    case millisecond => rfl
    case day =>
      simp only [DateFlow.valueOf, JSDate.getTime]
      rw [startOf_day_val c (DateFlow.startOf (JSDate.constTz c) m .day),
        startOf_day_val c m]
      omega
    case hour =>
      simp only [DateFlow.valueOf, JSDate.getTime]
      rw [startOf_hour_val c (DateFlow.startOf (JSDate.constTz c) m .hour),
        startOf_hour_val c m]
      omega
    case minute =>
      simp only [DateFlow.valueOf, JSDate.getTime]
      rw [startOf_minute_val c (DateFlow.startOf (JSDate.constTz c) m .minute),
        startOf_minute_val c m]
      omega
    case second =>
      simp only [DateFlow.valueOf, JSDate.getTime]
      rw [startOf_second_val c (DateFlow.startOf (JSDate.constTz c) m .second),
        startOf_second_val c m]
      omega
    case week =>
      simp only [DateFlow.valueOf, JSDate.getTime]
      rw [startOf_week_val c (DateFlow.startOf (JSDate.constTz c) m .week),
        startOf_week_val c m]
      omega
    case month =>
      simp only [DateFlow.valueOf, JSDate.getTime]
      rw [startOf_month_val c (DateFlow.startOf (JSDate.constTz c) m .month),
        startOf_month_val c m]
      set z := (m.date - c * 60000) / 86400000 with hz
      have hm := JSDate.monthFromDay_bounds z
      have hbd := JSDate.dateFromDay_bounds z
      have hpos := JSDate.daysInMonth_pos (JSDate.yearFromDay z) (JSDate.monthFromDay z)
        hm.1 hm.2
      have hrec := JSDate.makeDay_reconstruct z
      have hshift := JSDate.makeDay_shift (JSDate.yearFromDay z) (JSDate.monthFromDay z)
        1 (JSDate.dateFromDay z)
      have hfld := JSDate.makeDay_fields (JSDate.yearFromDay z) (JSDate.monthFromDay z)
        1 hm.1 (by omega) (by omega) hpos
      have harg : ((z + 1 - JSDate.dateFromDay z) * 86400000 + c * 60000 - c * 60000)
          / 86400000 = JSDate.makeDay (JSDate.yearFromDay z) (JSDate.monthFromDay z) 1 := by
        omega
      rw [harg, hfld.2.2]
      omega
    case year =>
      simp only [DateFlow.valueOf, JSDate.getTime]
      rw [startOf_year_val c (DateFlow.startOf (JSDate.constTz c) m .year),
        startOf_year_val c m]
      set z := (m.date - c * 60000) / 86400000 with hz
      have hL := JSDate.daysInYear_eq (JSDate.yearFromDay z)
      have hy : JSDate.yearFromDay (JSDate.dayFromYear (JSDate.yearFromDay z)) =
          JSDate.yearFromDay z := by
        have := JSDate.yearFromDay_of_offset (JSDate.yearFromDay z) 0 (le_refl 0) (by omega)
        simpa using this
      have harg : (JSDate.dayFromYear (JSDate.yearFromDay z) * 86400000 + c * 60000
          - c * 60000) / 86400000 = JSDate.dayFromYear (JSDate.yearFromDay z) := by
        omega
      rw [harg, hy]
  · cases u
    case millisecond => rfl
    case day =>
      simp only [DateFlow.valueOf, JSDate.getTime]
      rw [endOf_day_val c (DateFlow.endOf (JSDate.constTz c) m .day), endOf_day_val c m]
      omega
    case hour =>
      simp only [DateFlow.valueOf, JSDate.getTime]
      rw [endOf_hour_val c (DateFlow.endOf (JSDate.constTz c) m .hour), endOf_hour_val c m]
      omega
    case minute =>
      simp only [DateFlow.valueOf, JSDate.getTime]
      rw [endOf_minute_val c (DateFlow.endOf (JSDate.constTz c) m .minute),
        endOf_minute_val c m]
      omega
    case second =>
      simp only [DateFlow.valueOf, JSDate.getTime]
      rw [endOf_second_val c (DateFlow.endOf (JSDate.constTz c) m .second),
        endOf_second_val c m]
      omega
    case week =>
      simp only [DateFlow.valueOf, JSDate.getTime]
      rw [endOf_week_val c (DateFlow.endOf (JSDate.constTz c) m .week), endOf_week_val c m]
      omega
    case month =>
      simp only [DateFlow.valueOf, JSDate.getTime]
      rw [endOf_month_val c (DateFlow.endOf (JSDate.constTz c) m .month),
        endOf_month_val c m]
      set z := (m.date - c * 60000) / 86400000 with hz
      have hm := JSDate.monthFromDay_bounds z
      have hbd := JSDate.dateFromDay_bounds z
      have hpos := JSDate.daysInMonth_pos (JSDate.yearFromDay z) (JSDate.monthFromDay z)
        hm.1 hm.2
      have hrec := JSDate.makeDay_reconstruct z
      have hshift := JSDate.makeDay_shift (JSDate.yearFromDay z) (JSDate.monthFromDay z)
        (JSDate.daysInMonth (JSDate.yearFromDay z) (JSDate.monthFromDay z))
        (JSDate.dateFromDay z)
      have hfld := JSDate.makeDay_fields (JSDate.yearFromDay z) (JSDate.monthFromDay z)
        (JSDate.daysInMonth (JSDate.yearFromDay z) (JSDate.monthFromDay z))
        hm.1 (by omega) (by omega) (le_refl _)
      have harg : ((z + JSDate.daysInMonth (JSDate.yearFromDay z) (JSDate.monthFromDay z)
          - JSDate.dateFromDay z) * 86400000 + 86399999 + c * 60000 - c * 60000)
          / 86400000 =
          JSDate.makeDay (JSDate.yearFromDay z) (JSDate.monthFromDay z)
            (JSDate.daysInMonth (JSDate.yearFromDay z) (JSDate.monthFromDay z)) := by
        omega
      rw [harg, hfld.1, hfld.2.1, hfld.2.2]
      omega
    case year =>
      simp only [DateFlow.valueOf, JSDate.getTime]
      rw [endOf_year_val c (DateFlow.endOf (JSDate.constTz c) m .year), endOf_year_val c m]
      set z := (m.date - c * 60000) / 86400000 with hz
      have hL := JSDate.daysInYear_eq (JSDate.yearFromDay z)
      have hy : JSDate.yearFromDay (JSDate.dayFromYear (JSDate.yearFromDay z) +
          JSDate.daysInYear (JSDate.yearFromDay z) - 1) = JSDate.yearFromDay z := by
        have := JSDate.yearFromDay_of_offset (JSDate.yearFromDay z)
          (JSDate.daysInYear (JSDate.yearFromDay z) - 1) (by omega) (by omega)
        have harr : JSDate.dayFromYear (JSDate.yearFromDay z) +
            (JSDate.daysInYear (JSDate.yearFromDay z) - 1) =
            JSDate.dayFromYear (JSDate.yearFromDay z) +
              JSDate.daysInYear (JSDate.yearFromDay z) - 1 := by omega
        rw [harr] at this
        exact this
      have harg : ((JSDate.dayFromYear (JSDate.yearFromDay z) +
          JSDate.daysInYear (JSDate.yearFromDay z) - 1) * 86400000 + 86399999 + c * 60000
          - c * 60000) / 86400000 =
          JSDate.dayFromYear (JSDate.yearFromDay z) +
            JSDate.daysInYear (JSDate.yearFromDay z) - 1 := by
        omega
      rw [harg, hy]
